import Mathlib

/-!
Verification development for the containerimage-py library.

This file shallowly embeds the parts of the library needed to settle the
frozen claims: the reference-grammar regular expressions (`image/regex.py`),
the reference parser (`image/reference.py`), descriptors and JSON-schema
validation (`image/descriptor.py`, `image/manifestschema.py`), manifests and
manifest lists (`image/manifest.py`, `image/manifestlist.py`), the manifest
factory (`image/manifestfactory.py`), the registry client's credential
selection and digest computation (`image/client.py`), platforms
(`image/platform.py`), and the image facade / list diff
(`image/containerimage.py`).

Python values parsed from JSON are modelled by the `Json` inductive; Python
dicts are association lists with insertion-order semantics; Python
exceptions are modelled with `Except PyErr`.
-/

set_option maxRecDepth 400000

namespace ContainerImagePy

/-- A parsed JSON document, as produced by Python's `json` module /
`requests.Response.json()`.  Numbers are restricted to integers, which is
what every schema in the library admits (`"type": "integer"`). -/
inductive Json where
  | null : Json
  | bool (b : Bool) : Json
  | num (n : Int) : Json
  | str (s : String) : Json
  | arr (xs : List Json) : Json
  | obj (kvs : List (String × Json)) : Json

namespace Json

/-- `d.get(k)` on a Python dict: first binding of `k`, if any. -/
def lookup (kvs : List (String × Json)) (k : String) : Option Json :=
  (kvs.find? (fun p => p.1 == k)).map (fun p => p.2)

/-- `k in d` on a Python dict. -/
def hasKey (kvs : List (String × Json)) (k : String) : Bool :=
  kvs.any (fun p => p.1 == k)

/-- Is the `mediaType` field of a dict the given string?  (The
`mediaType in UNSUPPORTED_...` membership tests of the source, whose
unsupported lists each hold one string.) -/
def mediaTypeIs (kvs : List (String × Json)) (mt : String) : Bool :=
  match lookup kvs "mediaType" with
  | some (.str s) => s == mt
  | _ => false

end Json

/-- Python exceptions raised by the embedded code. -/
inductive PyErr where
  | containerImageError (msg : String)
  | validationError (msg : String)
  | valueError (msg : String)
  | typeError (msg : String)
  | exception (msg : String)
  | httpError (status : Nat)
deriving DecidableEq, Repr

/-- Assignment `d[k] = v` on a Python dict modelled as an assoc list:
an existing key keeps its position and gets the new value, a new key is
appended (insertion order). -/
def dictSet (d : List (String × Int)) (k : String) (v : Int) :
    List (String × Int) :=
  if d.any (fun p => p.1 == k) then
    d.map (fun p => if p.1 == k then (k, v) else p)
  else
    d ++ [(k, v)]

/-- Sum of the values of a Python dict (`for k in d.keys(): s += d[k]`). -/
def dictValuesSum (d : List (String × Int)) : Int :=
  (d.map (fun p => p.2)).sum

/-! ## Regular expressions (`image/regex.py`)

The library's grammar is built from Python `re` patterns.  We embed them as
a small regular-expression AST with character classes given by closed
code-point ranges, and decide full-string matching with Brzozowski
derivatives.  Every pattern the library applies with `re.match` is one of
the `anchored(...)` patterns (`^...$`), so full-string matching is the
semantics in use (no embedded input contains a trailing newline, the one
spot where Python's `$` differs from end-of-string). -/

/-- Regular expressions over characters; `cls rs` matches one character
whose code point lies in one of the inclusive ranges of `rs`. -/
inductive RE where
  | emp : RE
  | eps : RE
  | cls (rs : List (Nat × Nat)) : RE
  | cat (a b : RE) : RE
  | alt (a b : RE) : RE
  | star (a : RE) : RE
deriving DecidableEq, Repr

namespace RE

/-- Does character `c` belong to the class given by ranges `rs`? -/
def memCls (rs : List (Nat × Nat)) (c : Char) : Bool :=
  rs.any (fun r => r.1 ≤ c.toNat && c.toNat ≤ r.2)

/-- Does the regular expression accept the empty string? -/
def nullable : RE → Bool
  | emp => false
  | eps => true
  | cls _ => false
  | cat a b => nullable a && nullable b
  | alt a b => nullable a || nullable b
  | star _ => true

/-- Smart concatenation (language-preserving simplification). -/
def mkCat : RE → RE → RE
  | emp, _ => emp
  | _, emp => emp
  | eps, b => b
  | a, eps => a
  | a, b => cat a b

/-- Smart alternation (language-preserving simplification). -/
def mkAlt : RE → RE → RE
  | emp, b => b
  | a, emp => a
  | a, b => if a = b then a else alt a b

/-- Brzozowski derivative of a regular expression by a character. -/
def deriv : RE → Char → RE
  | emp, _ => emp
  | eps, _ => emp
  | cls rs, c => if memCls rs c then eps else emp
  | cat a b, c =>
      if nullable a then mkAlt (mkCat (deriv a c) b) (deriv b c)
      else mkCat (deriv a c) b
  | alt a b, c => mkAlt (deriv a c) (deriv b c)
  | star a, c => mkCat (deriv a c) (star a)

/-- Full-string matching: derive by every character, then test
nullability.  This is `re.match` against an `anchored` (`^...$`)
pattern. -/
def matchFull (r : RE) (s : String) : Bool :=
  nullable (s.data.foldl deriv r)

/-- A class containing a single literal character. -/
def chr (c : Char) : RE :=
  cls [(c.toNat, c.toNat)]

/-- `regex.literal`: a string matched literally (escaping has no semantic
content). -/
def literal (s : String) : RE :=
  s.data.foldr (fun c r => cat (chr c) r) eps

/-- `regex.expression`: each expression must follow the previous. -/
def expression (res : List RE) : RE :=
  res.foldr cat eps

/-- `regex.group`: non-capturing group (semantically the identity). -/
def group (res : List RE) : RE :=
  expression res

/-- `regex.capture`: capturing group (semantically the identity; the
library never reads the captures). -/
def capture (res : List RE) : RE :=
  expression res

/-- `regex.optional`: `(?:X)?`. -/
def optionalRE (res : List RE) : RE :=
  alt (group res) eps

/-- `regex.repeated`: `(?:X)+`. -/
def repeated (res : List RE) : RE :=
  cat (group res) (star (group res))

/-- `X{0,n}`: at most `n` repetitions. -/
def repAtMost : Nat → RE → RE
  | 0, _ => eps
  | n + 1, r => alt eps (cat r (repAtMost n r))

/-- `X{n}` as a building block for `X{n,}`. -/
def repExact : Nat → RE → RE
  | 0, _ => eps
  | n + 1, r => cat r (repExact n r)

/-- `X{n,}`: at least `n` repetitions. -/
def repAtLeast (n : Nat) (r : RE) : RE :=
  cat (repExact n r) (star r)

/-- `anchored`: `^X$`; under full-string matching this is `expression`. -/
def anchored (res : List RE) : RE :=
  expression res

end RE

namespace Regex

open RE

/-- `[a-z0-9]+` (`ALPHA_NUMERIC`). -/
def ALPHA_NUMERIC : RE :=
  cat (cls [(97, 122), (48, 57)]) (star (cls [(97, 122), (48, 57)]))

/-- `(?:[._]|__|[-]*)` (`SEPARATOR`). -/
def SEPARATOR : RE :=
  alt (cls [(46, 46), (95, 95)]) (alt (literal "__") (star (chr '-')))

/-- `(?:[a-zA-Z0-9]|[a-zA-Z0-9][a-zA-Z0-9-]*[a-zA-Z0-9])`
(`DOMAIN_COMPONENT`). -/
def DOMAIN_COMPONENT : RE :=
  alt (cls [(97, 122), (65, 90), (48, 57)])
    (cat (cls [(97, 122), (65, 90), (48, 57)])
      (cat (star (cls [(97, 122), (65, 90), (48, 57), (45, 45)]))
        (cls [(97, 122), (65, 90), (48, 57)])))

/-- `[\w]` for ASCII input: `[a-zA-Z0-9_]`. -/
def wordChar : RE :=
  cls [(97, 122), (65, 90), (48, 57), (95, 95)]

/-- `[\w.-]` for ASCII input. -/
def wordDotDash : RE :=
  cls [(97, 122), (65, 90), (48, 57), (95, 95), (46, 46), (45, 45)]

/-- `[\w][\w.-]{0,127}` (`TAG_PAT`). -/
def TAG_PAT : RE :=
  cat wordChar (repAtMost 127 wordDotDash)

/-- `[A-Za-z][A-Za-z0-9]*(?:[-_+.][A-Za-z][A-Za-z0-9]*)*:[0-9a-fA-F]{32,}`
(`DIGEST_PAT`). -/
def DIGEST_PAT : RE :=
  cat (cls [(65, 90), (97, 122)])
    (cat (star (cls [(65, 90), (97, 122), (48, 57)]))
      (cat
        (star
          (cat (cls [(45, 45), (95, 95), (43, 43), (46, 46)])
            (cat (cls [(65, 90), (97, 122)])
              (star (cls [(65, 90), (97, 122), (48, 57)])))))
        (cat (chr ':')
          (repAtLeast 32 (cls [(48, 57), (97, 102), (65, 70)])))))

/-- `NAME_COMPONENT = ALPHA_NUMERIC (SEPARATOR ALPHA_NUMERIC)*`. -/
def NAME_COMPONENT : RE :=
  expression [ALPHA_NUMERIC, optionalRE [repeated [SEPARATOR, ALPHA_NUMERIC]]]

/-- `DOMAIN = DOMAIN_COMPONENT (. DOMAIN_COMPONENT)* (:[0-9]+)?`. -/
def DOMAIN : RE :=
  expression
    [DOMAIN_COMPONENT,
     optionalRE [repeated [literal ".", DOMAIN_COMPONENT]],
     optionalRE [literal ":", cat (cls [(48, 57)]) (star (cls [(48, 57)]))]]

/-- `ANCHORED_DOMAIN = ^DOMAIN$`. -/
def ANCHORED_DOMAIN : RE :=
  anchored [DOMAIN]

/-- `ANCHORED_TAG = ^TAG$`. -/
def ANCHORED_TAG : RE :=
  anchored [TAG_PAT]

/-- `ANCHORED_DIGEST = ^DIGEST$`. -/
def ANCHORED_DIGEST : RE :=
  anchored [DIGEST_PAT]

/-- `NAME_PAT = (DOMAIN /)? NAME_COMPONENT (/ NAME_COMPONENT)*`. -/
def NAME_PAT : RE :=
  expression
    [optionalRE [DOMAIN, literal "/"],
     NAME_COMPONENT,
     optionalRE [repeated [literal "/", NAME_COMPONENT]]]

/-- `ANCHORED_NAME`: the anchored name pattern with capture groups. -/
def ANCHORED_NAME : RE :=
  anchored
    [optionalRE [capture [DOMAIN], literal "/"],
     capture
       [NAME_COMPONENT, optionalRE [repeated [literal "/", NAME_COMPONENT]]]]

/-- `REFERENCE_PAT = ^NAME (:TAG)? (@DIGEST)?$`. -/
def REFERENCE_PAT : RE :=
  anchored
    [capture [NAME_PAT],
     optionalRE [literal ":", capture [TAG_PAT]],
     optionalRE [literal "@", capture [DIGEST_PAT]]]

end Regex

/-! ## Python string helpers

Implemented over character lists by structural recursion so that every
embedded function evaluates by kernel reduction. -/

/-- One split step of Python `str.split` with a non-empty separator:
`fuel` bounds the number of characters still to scan. -/
def pySplitGo (sep : List Char) : Nat → List Char → List Char →
    List (List Char)
  | 0, cur, rest => [cur.reverse ++ rest]
  | fuel + 1, cur, rest =>
      if sep.isPrefixOf rest then
        cur.reverse :: pySplitGo sep fuel [] (rest.drop sep.length)
      else
        match rest with
        | [] => [cur.reverse]
        | c :: rs => pySplitGo sep fuel (c :: cur) rs

/-- Python `s.split(sep)` for a non-empty separator. -/
def pySplit (s sep : String) : List String :=
  (pySplitGo sep.data (s.data.length + 1) [] s.data).map String.mk

/-- `s.split(sep)[0]` (the split list is never empty). -/
def pySplitHead (s sep : String) : String :=
  (pySplit s sep).headD s

/-- `s.split(sep)[-1]`. -/
def pySplitLast (s sep : String) : String :=
  (pySplit s sep).getLastD s

/-- Python `sub in s` for a single-character needle. -/
def pyContainsChar (s : String) (c : Char) : Bool :=
  s.data.any (fun x => x == c)

/-- Python `s.startswith(p)`. -/
def pyStartsWith (s p : String) : Bool :=
  p.data.isPrefixOf s.data

/-- ASCII lower-casing of one character. -/
def charToLower (c : Char) : Char :=
  if 65 ≤ c.toNat && c.toNat ≤ 90 then Char.ofNat (c.toNat + 32) else c

/-- ASCII `s.lower()`. -/
def pyToLower (s : String) : String :=
  String.mk (s.data.map charToLower)

/-! ## Reference parsing (`image/reference.py`)

`ContainerImageReference` stores the raw reference string `self.ref`; every
accessor re-validates it.  We embed the accessors as functions of that
string. -/

namespace ContainerImageReference

open Regex RE

/-- `ContainerImageReference.validate_static`: anchored match against the
full reference pattern. -/
def validate_static (ref : String) : Bool × String :=
  if matchFull REFERENCE_PAT ref then (true, "")
  else (false, "Invalid reference: " ++ ref)

/-- `is_digest_ref`: the part after the last `@` matches the anchored
digest pattern. -/
def is_digest_ref (ref : String) : Except PyErr Bool :=
  if ¬ matchFull REFERENCE_PAT ref then
    .error (.containerImageError ("Invalid reference: " ++ ref))
  else if ¬ pyContainsChar ref '@' then
    .ok false
  else
    .ok (matchFull ANCHORED_DIGEST (pySplitLast ref "@"))

/-- `is_tag_ref`: not a digest ref, and the part after the last `:` (or
the literal `latest`) matches the anchored tag pattern. -/
def is_tag_ref (ref : String) : Except PyErr Bool := do
  if ¬ matchFull REFERENCE_PAT ref then
    .error (.containerImageError ("Invalid reference: " ++ ref))
  else if (← is_digest_ref ref) then
    .ok false
  else
    .ok (matchFull ANCHORED_TAG
      (if pyContainsChar ref ':' then pySplitLast ref ":" else "latest"))

/-- `get_identifier`: digest if digest-ref, else tag, else `latest`,
raising if the reference is neither kind. -/
def get_identifier (ref : String) : Except PyErr String := do
  if ¬ matchFull REFERENCE_PAT ref then
    .error (.containerImageError ("Invalid reference: " ++ ref))
  else if (← is_digest_ref ref) then
    .ok (pySplitLast ref "@")
  else if (← is_tag_ref ref) then
    if pyContainsChar ref ':' then .ok (pySplitLast ref ":") else .ok "latest"
  else
    .error (.exception ("Not a valid tag or digest ref: " ++ ref))

/-- `get_name`: strip everything from the first `@`, then everything from
the first `:`, and validate the remainder against the anchored name
pattern. -/
def get_name (ref : String) : Except PyErr String :=
  if ¬ matchFull REFERENCE_PAT ref then
    .error (.containerImageError ("Invalid reference: " ++ ref))
  else
    let digestless := pySplitHead ref "@"
    let tagless := pySplitHead digestless ":"
    if ¬ matchFull ANCHORED_NAME tagless then
      .error (.containerImageError ("Invalid name: " ++ tagless))
    else
      .ok tagless

/-- `get_registry`: the first slash-separated segment of `get_name`,
validated against the anchored domain pattern. -/
def get_registry (ref : String) : Except PyErr String := do
  let name ← get_name ref
  let registry := pySplitHead name "/"
  if ¬ matchFull ANCHORED_DOMAIN registry then
    .error (.containerImageError ("Invalid domain: " ++ registry))
  else
    .ok registry

end ContainerImageReference

/-! ## UTF-8, SHA-256 and `json.dumps`

`client.get_digest` canonicalizes a manifest body with
`json.dumps(manifest, indent=3).encode('utf-8')` and hashes it with
`hashlib.sha256(...).hexdigest()`.  These external primitives are embedded
here: UTF-8 encoding, the FIPS 180-4 SHA-256 function over byte lists, and
Python's `json.dumps` for the integer-valued JSON documents of this
library. -/

/-- UTF-8 encoding of one character (code point), as a list of bytes. -/
def utf8EncodeChar (c : Char) : List Nat :=
  let n := c.toNat
  if n < 128 then [n]
  else if n < 2048 then [192 + n / 64, 128 + n % 64]
  else if n < 65536 then [224 + n / 4096, 128 + (n / 64) % 64, 128 + n % 64]
  else [240 + n / 262144, 128 + (n / 4096) % 64, 128 + (n / 64) % 64,
    128 + n % 64]

/-- `s.encode('utf-8')` as a list of bytes. -/
def utf8Encode (s : String) : List Nat :=
  (s.data.map utf8EncodeChar).flatten

namespace SHA256

/-- Truncation to 32 bits. -/
def mask32 (x : Nat) : Nat := x % 4294967296

/-- 32-bit modular addition. -/
def add32 (a b : Nat) : Nat := mask32 (a + b)

/-- 32-bit right rotation by `n`. -/
def rotr (n x : Nat) : Nat := mask32 (x >>> n ||| x <<< (32 - n))

/-- Bitwise complement on 32 bits. -/
def not32 (x : Nat) : Nat := Nat.xor x 4294967295

/-- FIPS 180-4 `Ch`. -/
def ch (x y z : Nat) : Nat := Nat.xor (Nat.land x y) (Nat.land (not32 x) z)

/-- FIPS 180-4 `Maj`. -/
def maj (x y z : Nat) : Nat :=
  Nat.xor (Nat.xor (Nat.land x y) (Nat.land x z)) (Nat.land y z)

/-- FIPS 180-4 `Σ₀`. -/
def bigSigma0 (x : Nat) : Nat :=
  Nat.xor (Nat.xor (rotr 2 x) (rotr 13 x)) (rotr 22 x)

/-- FIPS 180-4 `Σ₁`. -/
def bigSigma1 (x : Nat) : Nat :=
  Nat.xor (Nat.xor (rotr 6 x) (rotr 11 x)) (rotr 25 x)

/-- FIPS 180-4 `σ₀`. -/
def smallSigma0 (x : Nat) : Nat :=
  Nat.xor (Nat.xor (rotr 7 x) (rotr 18 x)) (x >>> 3)

/-- FIPS 180-4 `σ₁`. -/
def smallSigma1 (x : Nat) : Nat :=
  Nat.xor (Nat.xor (rotr 17 x) (rotr 19 x)) (x >>> 10)

/-- The 64 SHA-256 round constants. -/
def K : List Nat :=
  [1116352408, 1899447441, 3049323471, 3921009573, 961987163, 1508970993,
   2453635748, 2870763221, 3624381080, 310598401, 607225278, 1426881987,
   1925078388, 2162078206, 2614888103, 3248222580, 3835390401, 4022224774,
   264347078, 604807628, 770255983, 1249150122, 1555081692, 1996064986,
   2554220882, 2821834349, 2952996808, 3210313671, 3336571891, 3584528711,
   113926993, 338241895, 666307205, 773529912, 1294757372, 1396182291,
   1695183700, 1986661051, 2177026350, 2456956037, 2730485921, 2820302411,
   3259730800, 3345764771, 3516065817, 3600352804, 4094571909, 275423344,
   430227734, 506948616, 659060556, 883997877, 958139571, 1322822218,
   1537002063, 1747873779, 1955562222, 2024104815, 2227730452, 2361852424,
   2428436474, 2756734187, 3204031479, 3329325298]

/-- The initial SHA-256 hash state. -/
def H0 : List Nat :=
  [1779033703, 3144134277, 1013904242, 2773480762, 1359893119, 2600822924,
   528734635, 1541459225]

/-- SHA-256 message padding: `0x80`, zeros to 56 mod 64, then the bit
length as 8 big-endian bytes. -/
def pad (m : List Nat) : List Nat :=
  let L := m.length
  let zeros := (119 - L % 64) % 64
  let bitLen := 8 * L
  m ++ [128] ++ List.replicate zeros 0 ++
    (List.range 8).map (fun i => bitLen / 256 ^ (7 - i) % 256)

/-- Big-endian 4-byte grouping into 32-bit words. -/
def bytesToWords : List Nat → List Nat
  | b0 :: b1 :: b2 :: b3 :: rest =>
      (b0 * 16777216 + b1 * 65536 + b2 * 256 + b3) :: bytesToWords rest
  | _ => []

/-- Split a byte list into 64-byte blocks (`fuel` bounds the number of
blocks; each step consumes at least one byte, so the list's length is
enough fuel). -/
def toBlocksFuel : Nat → List Nat → List (List Nat)
  | 0, _ => []
  | _, [] => []
  | fuel + 1, bs => bs.take 64 :: toBlocksFuel fuel (bs.drop 64)

/-- Split a byte list into 64-byte blocks. -/
def toBlocks (bs : List Nat) : List (List Nat) :=
  toBlocksFuel bs.length bs

/-- Extend the 16 message-schedule words by `n` more words. -/
def extendW (w : List Nat) : Nat → List Nat
  | 0 => w
  | n + 1 =>
      extendW
        (w ++ [add32
          (add32 (smallSigma1 (w.getD (w.length - 2) 0))
            (w.getD (w.length - 7) 0))
          (add32 (smallSigma0 (w.getD (w.length - 15) 0))
            (w.getD (w.length - 16) 0))]) n

/-- One SHA-256 round on the 8-word working state. -/
def roundFn (st : List Nat) (wk : Nat × Nat) : List Nat :=
  match st with
  | [a, b, c, d, e, f, g, h] =>
      let t1 := add32 (add32 (add32 h (bigSigma1 e)) (add32 (ch e f g) wk.2))
        wk.1
      let t2 := add32 (bigSigma0 a) (maj a b c)
      [add32 t1 t2, a, b, c, add32 d t1, e, f, g]
  | other => other

/-- Compression of one 16-word block into the hash state. -/
def compress (st : List Nat) (block : List Nat) : List Nat :=
  let w := extendW block 48
  let out := (w.zip K).foldl roundFn st
  List.zipWith add32 st out

/-- SHA-256 digest of a byte list, as 32 bytes. -/
def sha256Bytes (m : List Nat) : List Nat :=
  let st := (toBlocks (pad m)).foldl (fun st b => compress st (bytesToWords b))
    H0
  (st.map (fun w => [w / 16777216 % 256, w / 65536 % 256, w / 256 % 256,
    w % 256])).flatten

/-- A lowercase hexadecimal digit: codepoint 48 + n for 0-9, 87 + n for
a-f. -/
def hexChar (n : Nat) : Char :=
  if n < 10 then Char.ofNat (48 + n)
  else if n < 16 then Char.ofNat (87 + n)
  else '0'

/-- `hashlib.sha256(m).hexdigest()`: the digest as a 64-character lowercase
hex string. -/
def hexdigest (m : List Nat) : String :=
  String.mk (((sha256Bytes m).map
    (fun b => [hexChar (b / 16), hexChar (b % 16)])).flatten)

end SHA256

namespace PyJson

/-- JSON string escaping as Python's `json.dumps` performs it on the
ASCII, control-free strings appearing in this library. -/
def escapeChar (c : Char) : List Char :=
  if c = '"' then ['\\', '"']
  else if c = '\\' then ['\\', '\\']
  else if c = '\n' then ['\\', 'n']
  else if c = '\t' then ['\\', 't']
  else if c = '\r' then ['\\', 'r']
  else [c]

/-- A JSON-encoded string literal. -/
def encodeString (s : String) : String :=
  "\"" ++ String.mk ((s.data.map escapeChar).flatten) ++ "\""

/-- `n` spaces. -/
def spaces (n : Nat) : String :=
  String.mk (List.replicate n ' ')

mutual

/-- Python `json.dumps(x)` with default separators `', '` / `': '`. -/
def dumps : Json → String
  | .null => "null"
  | .bool true => "true"
  | .bool false => "false"
  | .num n => toString n
  | .str s => encodeString s
  | .arr xs => "[" ++ dumpsList xs ++ "]"
  | .obj kvs => "\x7b" ++ dumpsObj kvs ++ "\x7d"

/-- Array elements under default separators. -/
def dumpsList : List Json → String
  | [] => ""
  | [x] => dumps x
  | x :: y :: xs => dumps x ++ ", " ++ dumpsList (y :: xs)

/-- Object members under default separators. -/
def dumpsObj : List (String × Json) → String
  | [] => ""
  | [(k, v)] => encodeString k ++ ": " ++ dumps v
  | (k, v) :: m :: kvs =>
      encodeString k ++ ": " ++ dumps v ++ ", " ++ dumpsObj (m :: kvs)

end

mutual

/-- Python `json.dumps(x, indent=w)` at nesting level `l`: item separator
`','` plus a newline, key separator `': '`, empty containers printed
inline. -/
def dumpsIndent (w l : Nat) : Json → String
  | .null => "null"
  | .bool true => "true"
  | .bool false => "false"
  | .num n => toString n
  | .str s => encodeString s
  | .arr [] => "[]"
  | .arr (x :: xs) =>
      "[\n" ++ dumpsIndentList w (l + 1) (x :: xs) ++ "\n" ++ spaces (w * l)
        ++ "]"
  | .obj [] => "\x7b\x7d"
  | .obj (kv :: kvs) =>
      "\x7b\n" ++ dumpsIndentObj w (l + 1) (kv :: kvs) ++ "\n"
        ++ spaces (w * l) ++ "\x7d"

/-- Indented array elements. -/
def dumpsIndentList (w l : Nat) : List Json → String
  | [] => ""
  | [x] => spaces (w * l) ++ dumpsIndent w l x
  | x :: y :: xs =>
      spaces (w * l) ++ dumpsIndent w l x ++ ",\n"
        ++ dumpsIndentList w l (y :: xs)

/-- Indented object members. -/
def dumpsIndentObj (w l : Nat) : List (String × Json) → String
  | [] => ""
  | [(k, v)] => spaces (w * l) ++ encodeString k ++ ": " ++ dumpsIndent w l v
  | (k, v) :: m :: kvs =>
      spaces (w * l) ++ encodeString k ++ ": " ++ dumpsIndent w l v ++ ",\n"
        ++ dumpsIndentObj w l (m :: kvs)

end

end PyJson

/-! ## JSON schemas (`image/manifestschema.py`, `image/v2s2schema.py`,
`image/ocischema.py`)

Each schema dict of the source is embedded as a boolean validator with
`jsonschema` draft semantics for the features those schemas use: `"type"`
checks, `"required"` keys, `"additionalProperties": False`, and recursive
`"items"` / property sub-schemas.  A property sub-schema constrains a key
only when the key is present. -/

namespace Schema

/-- `{"type": "string"}`. -/
def isStr : Json → Bool
  | .str _ => true
  | _ => false

/-- `{"type": "integer"}` (Python `jsonschema` excludes booleans). -/
def isInt : Json → Bool
  | .num _ => true
  | _ => false

/-- `{"type": "object"}` with no property constraints. -/
def isObj : Json → Bool
  | .obj _ => true
  | _ => false

/-- `{"type": "array"}` with no item constraints. -/
def isArrAny : Json → Bool
  | .arr _ => true
  | _ => false

/-- `{"type": "array", "items": {"type": "string"}}`. -/
def isArrStr : Json → Bool
  | .arr xs => xs.all isStr
  | _ => false

/-- `MANIFEST_DESCRIPTOR_SCHEMA`: required `mediaType`, `size`, `digest`;
optional `urls` (array of string) and `annotations` (object); no other
properties. -/
def descriptorOk : Json → Bool
  | .obj kvs =>
      Json.hasKey kvs "mediaType" && Json.hasKey kvs "size" &&
      Json.hasKey kvs "digest" &&
      kvs.all (fun p =>
        if p.1 == "mediaType" then isStr p.2
        else if p.1 == "digest" then isStr p.2
        else if p.1 == "size" then isInt p.2
        else if p.1 == "urls" then isArrStr p.2
        else if p.1 == "annotations" then isObj p.2
        else false)
  | _ => false

/-- `IMAGE_INDEX_ENTRY_PLATFORM_SCHEMA`: required `os`, `architecture`;
optional `os.version` (string), `os.features` (array of string),
`variant` (string), `features` (array); no other properties. -/
def platformOk : Json → Bool
  | .obj kvs =>
      Json.hasKey kvs "os" && Json.hasKey kvs "architecture" &&
      kvs.all (fun p =>
        if p.1 == "architecture" then isStr p.2
        else if p.1 == "os" then isStr p.2
        else if p.1 == "os.version" then isStr p.2
        else if p.1 == "os.features" then isArrStr p.2
        else if p.1 == "variant" then isStr p.2
        else if p.1 == "features" then isArrAny p.2
        else false)
  | _ => false

/-- `MANIFEST_V2_SCHEMA`: required `schemaVersion`, `mediaType`, `config`,
`layers`; no other properties. -/
def manifestV2Ok : Json → Bool
  | .obj kvs =>
      Json.hasKey kvs "schemaVersion" && Json.hasKey kvs "mediaType" &&
      Json.hasKey kvs "config" && Json.hasKey kvs "layers" &&
      kvs.all (fun p =>
        if p.1 == "schemaVersion" then isInt p.2
        else if p.1 == "mediaType" then isStr p.2
        else if p.1 == "config" then descriptorOk p.2
        else if p.1 == "layers" then
          match p.2 with
          | .arr xs => xs.all descriptorOk
          | _ => false
        else false)
  | _ => false

/-- `MANIFEST_LIST_V2_ENTRY_SCHEMA`: required `mediaType`, `size`,
`digest`, `platform`; no other properties. -/
def listEntryV2Ok : Json → Bool
  | .obj kvs =>
      Json.hasKey kvs "mediaType" && Json.hasKey kvs "size" &&
      Json.hasKey kvs "digest" && Json.hasKey kvs "platform" &&
      kvs.all (fun p =>
        if p.1 == "mediaType" then isStr p.2
        else if p.1 == "size" then isInt p.2
        else if p.1 == "digest" then isStr p.2
        else if p.1 == "platform" then platformOk p.2
        else false)
  | _ => false

/-- `MANIFEST_LIST_V2_SCHEMA`: required `mediaType`, `schemaVersion`,
`manifests`; no other properties. -/
def manifestListV2Ok : Json → Bool
  | .obj kvs =>
      Json.hasKey kvs "mediaType" && Json.hasKey kvs "schemaVersion" &&
      Json.hasKey kvs "manifests" &&
      kvs.all (fun p =>
        if p.1 == "mediaType" then isStr p.2
        else if p.1 == "schemaVersion" then isInt p.2
        else if p.1 == "manifests" then
          match p.2 with
          | .arr xs => xs.all listEntryV2Ok
          | _ => false
        else false)
  | _ => false

/-- `MANIFEST_OCI_SCHEMA`: required `schemaVersion`, `config`, `layers`;
optional `mediaType`, `annotations`; no other properties. -/
def manifestOciOk : Json → Bool
  | .obj kvs =>
      Json.hasKey kvs "schemaVersion" && Json.hasKey kvs "config" &&
      Json.hasKey kvs "layers" &&
      kvs.all (fun p =>
        if p.1 == "schemaVersion" then isInt p.2
        else if p.1 == "mediaType" then isStr p.2
        else if p.1 == "config" then descriptorOk p.2
        else if p.1 == "layers" then
          match p.2 with
          | .arr xs => xs.all descriptorOk
          | _ => false
        else if p.1 == "annotations" then isObj p.2
        else false)
  | _ => false

/-- `IMAGE_INDEX_ENTRY_OCI_SCHEMA`: required `mediaType`, `digest`,
`size`; optional `platform`, `annotations`; no other properties. -/
def indexEntryOciOk : Json → Bool
  | .obj kvs =>
      Json.hasKey kvs "mediaType" && Json.hasKey kvs "digest" &&
      Json.hasKey kvs "size" &&
      kvs.all (fun p =>
        if p.1 == "mediaType" then isStr p.2
        else if p.1 == "digest" then isStr p.2
        else if p.1 == "size" then isInt p.2
        else if p.1 == "platform" then platformOk p.2
        else if p.1 == "annotations" then isObj p.2
        else false)
  | _ => false

/-- `IMAGE_INDEX_OCI_SCHEMA`: required `schemaVersion`, `manifests`;
optional `mediaType`, `annotations`; no other properties. -/
def indexOciOk : Json → Bool
  | .obj kvs =>
      Json.hasKey kvs "schemaVersion" && Json.hasKey kvs "manifests" &&
      kvs.all (fun p =>
        if p.1 == "schemaVersion" then isInt p.2
        else if p.1 == "mediaType" then isStr p.2
        else if p.1 == "manifests" then
          match p.2 with
          | .arr xs => xs.all indexEntryOciOk
          | _ => false
        else if p.1 == "annotations" then isObj p.2
        else false)
  | _ => false

end Schema

/-! ## Descriptors (`image/descriptor.py`) -/

namespace ContainerImageDescriptor

open Regex RE

/-- `ContainerImageDescriptor.validate_static`: descriptor schema, then the
anchored digest pattern on the `digest` field (present and a string
whenever the schema validated). -/
def validate_static (descriptor : Json) : Bool × String :=
  if ¬ Schema.descriptorOk descriptor then
    (false, "jsonschema validation error")
  else
    match descriptor with
    | .obj kvs =>
        match Json.lookup kvs "digest" with
        | some (.str d) =>
            if ¬ matchFull ANCHORED_DIGEST d then
              (false, "Invalid digest: " ++ d)
            else (true, "")
        | _ => (false, "jsonschema validation error")
    | _ => (false, "jsonschema validation error")

/-- The constructor `ContainerImageDescriptor(descriptor)`: validate, and
raise `ValidationError` on failure. -/
def construct (descriptor : Json) : Except PyErr Json :=
  let v := validate_static descriptor
  if ¬ v.1 then .error (.validationError v.2) else .ok descriptor

/-- `descriptor.get_digest()`: the `digest` field, re-validated against
the anchored digest pattern. -/
def get_digest (descriptor : Json) : Except PyErr String :=
  match descriptor with
  | .obj kvs =>
      match Json.lookup kvs "digest" with
      | some (.str d) =>
          if ¬ matchFull ANCHORED_DIGEST d then
            .error (.validationError ("Invalid digest: " ++ d))
          else .ok d
      | _ => .error (.typeError "expected string or bytes-like object")
  | _ => .error (.typeError "not a dict")

/-- `descriptor.get_size()`: `int(descriptor.get("size"))`. -/
def get_size (descriptor : Json) : Except PyErr Int :=
  match descriptor with
  | .obj kvs =>
      match Json.lookup kvs "size" with
      | some (.num n) => .ok n
      | some (.str s) =>
          match s.toInt? with
          | some n => .ok n
          | none => .error (.valueError ("invalid literal for int: " ++ s))
      | _ => .error (.typeError "int() argument")
  | _ => .error (.typeError "not a dict")

end ContainerImageDescriptor

/-! ## Platforms (`image/platform.py`) -/

namespace ContainerImagePlatform

/-- `ContainerImagePlatform.validate_static`: the platform schema. -/
def validate_static (platform : Json) : Bool × String :=
  if Schema.platformOk platform then (true, "")
  else (false, "jsonschema validation error")

/-- `get_os`: the raw `os` value, `TypeError` when missing or null. -/
def get_os (platform : Json) : Except PyErr Json :=
  match platform with
  | .obj kvs =>
      match Json.lookup kvs "os" with
      | none | some .null => .error (.typeError "Invalid operating system: None")
      | some v => .ok v
  | _ => .error (.typeError "not a dict")

/-- `get_architecture`: the raw `architecture` value, `TypeError` when
missing or null. -/
def get_architecture (platform : Json) : Except PyErr Json :=
  match platform with
  | .obj kvs =>
      match Json.lookup kvs "architecture" with
      | none | some .null => .error (.typeError "Invalid architecture: None")
      | some v => .ok v
  | _ => .error (.typeError "not a dict")

/-- `get_variant`: the raw `variant` value, `None` when missing or null. -/
def get_variant (platform : Json) : Option Json :=
  match platform with
  | .obj kvs =>
      match Json.lookup kvs "variant" with
      | none | some .null => none
      | some v => some v
  | _ => none

/-- Python `f"{x}"` on a JSON leaf; exact for strings, which is the only
case a schema-validated platform exercises. -/
def pyFormat : Json → String
  | .str s => s
  | .bool true => "True"
  | .bool false => "False"
  | .null => "None"
  | .num n => toString n
  | v => PyJson.dumps v

/-- `ContainerImagePlatform.__str__`: `os/architecture`, with `/variant`
appended when the variant is present and a string. -/
def strPy (platform : Json) : Except PyErr String := do
  let os ← get_os platform
  let arch ← get_architecture platform
  let base := pyFormat os ++ "/" ++ pyFormat arch
  match get_variant platform with
  | some (.str v) => pure (base ++ "/" ++ v)
  | _ => pure base

/-- `ContainerImagePlatform.__eq__` between two platform instances:
equality of the two `__str__` forms. -/
def eqPy (p q : Json) : Except PyErr Bool := do
  let sp ← strPy p
  let sq ← strPy q
  pure (sp == sq)

end ContainerImagePlatform

/-! ## Manifests (`image/manifest.py`, `image/manifestlistentry.py`,
`image/manifestlist.py`)

A manifest object stores the parsed dict; the accessors work on that
`Json` value.  Network fetches performed by the manifest-list walk are
abstracted by a function `fetch : String → Json` from a full reference
string to the manifest body the registry returns for it. -/

namespace ContainerImageManifest

/-- `get_layer_descriptors`: `list(manifest.get("layers"))`, `ValueError`
on an empty list, then each element constructed (and so validated) as a
`ContainerImageDescriptor`.  A missing or non-list `layers` value is a
`TypeError` (as `list(None)` is in Python). -/
def get_layer_descriptors (manifest : Json) : Except PyErr (List Json) := do
  match manifest with
  | .obj kvs =>
      match Json.lookup kvs "layers" with
      | some (.arr layer_meta_list) =>
          if layer_meta_list.length == 0 then
            .error (.valueError "No layers found")
          else
            layer_meta_list.mapM ContainerImageDescriptor.construct
      | _ => .error (.typeError "object is not iterable")
  | _ => .error (.typeError "not a dict")

/-- `get_config_descriptor`: `dict(manifest.get("config"))` constructed
(and so validated) as a `ContainerImageDescriptor`. -/
def get_config_descriptor (manifest : Json) : Except PyErr Json := do
  match manifest with
  | .obj kvs =>
      match Json.lookup kvs "config" with
      | some (.obj config) => ContainerImageDescriptor.construct (.obj config)
      | _ => .error (.typeError "object is not iterable")
  | _ => .error (.typeError "not a dict")

/-- `get_size`: config size plus the layer sizes after writing each
`(digest, size)` pair into a dict keyed by digest. -/
def get_size (manifest : Json) : Except PyErr Int := do
  let config ← get_config_descriptor manifest
  let config_size ← ContainerImageDescriptor.get_size config
  let layers ← get_layer_descriptors manifest
  let layer_dict ← layers.foldlM
    (fun d layer => do
      let digest ← ContainerImageDescriptor.get_digest layer
      let size ← ContainerImageDescriptor.get_size layer
      pure (dictSet d digest size))
    ([] : List (String × Int))
  pure (config_size + dictValuesSum layer_dict)

end ContainerImageManifest

namespace ContainerImageManifestListEntry

open Regex RE

/-- `entry.get_digest()`: the `digest` field, validated against the
anchored digest pattern. -/
def get_digest (entry : Json) : Except PyErr String :=
  match entry with
  | .obj kvs =>
      match Json.lookup kvs "digest" with
      | some (.str d) =>
          if ¬ matchFull ANCHORED_DIGEST d then
            .error (.validationError ("Invalid digest: " ++ d))
          else .ok d
      | _ => .error (.typeError "expected string or bytes-like object")
  | _ => .error (.typeError "not a dict")

/-- `entry.get_size()`: `int(entry.get("size"))`. -/
def get_size (entry : Json) : Except PyErr Int :=
  match entry with
  | .obj kvs =>
      match Json.lookup kvs "size" with
      | some (.num n) => .ok n
      | some (.str s) =>
          match s.toInt? with
          | some n => .ok n
          | none => .error (.valueError ("invalid literal for int: " ++ s))
      | _ => .error (.typeError "int() argument")
  | _ => .error (.typeError "not a dict")

end ContainerImageManifestListEntry

namespace ContainerImageRegistryClient

open Regex RE

/-- `ContainerImageRegistryClient.get_manifest(ref, auth)` with the
network abstracted: the reference string is validated by the
`ContainerImageReference` constructor, then the registry's response body
for it is returned. -/
def get_manifest (fetch : String → Json) (ref : String) :
    Except PyErr Json :=
  if ¬ matchFull REFERENCE_PAT ref then
    .error (.containerImageError ("Invalid reference: " ++ ref))
  else
    .ok (fetch ref)

/-- The body of `get_registry_auth`'s loop over the registries of the
auth map: skip keys that are not leading substrings of the reference, and
record a matching key when it is strictly longer than the last match. -/
def authSelStep (ref : String) (acc : String × Bool) (registry : String) :
    String × Bool :=
  if ¬ pyStartsWith ref registry then acc
  else if registry.length > acc.1.length then (registry, true)
  else acc

/-- `ContainerImageRegistryClient.get_registry_auth`: scan the keys of
`auths` for leading substrings of the reference, keep the longest, then
read its `auth` field. -/
def get_registry_auth (ref : String) (auth : List (String × Json)) :
    Except PyErr (Json × Bool) := do
  let auths ← (match Json.lookup auth "auths" with
    | some (.obj kvs) => .ok kvs
    | none => .ok ([] : List (String × Json))
    | some _ => .error (.typeError "keys"))
  let r := (auths.map (fun p => p.1)).foldl (authSelStep ref) ("", false)
  if ¬ r.2 then
    .ok (.str "", false)
  else
    match (Json.lookup auths r.1).getD (.obj []) with
    | .obj kvs =>
        match Json.lookup kvs "auth" with
        | some a => .ok (a, true)
        | none => .error (.exception ("No auth key for registry " ++ r.1))
    | _ => .error (.typeError "argument is not a dict")

/-- A registry HTTP response: headers and parsed JSON body.  `requests`
header lookup is case-insensitive. -/
structure Response where
  headers : List (String × String)
  body : Json

/-- `'Docker-Content-Digest' in res.headers.keys()`: membership in the
keys view compares the stored header names exactly. -/
def headersContain (hs : List (String × String)) (k : String) : Bool :=
  hs.any (fun p => p.1 == k)

/-- `res.headers[k]`: `requests` header lookup is case-insensitive. -/
def headerGet (hs : List (String × String)) (k : String) : String :=
  ((hs.find? (fun p => pyToLower p.1 == pyToLower k)).map
    (fun p => p.2)).getD ""

/-- `ContainerImageRegistryClient.get_digest` after the manifest query:
trust the `Docker-Content-Digest` header when present, otherwise hash the
body re-serialized with `json.dumps(manifest, indent=3).encode('utf-8')`;
finally validate against the anchored digest pattern. -/
def get_digest (res : Response) : Except PyErr String :=
  let digest :=
    if headersContain res.headers "Docker-Content-Digest" then
      headerGet res.headers "Docker-Content-Digest"
    else
      SHA256.hexdigest (utf8Encode (PyJson.dumpsIndent 3 0 res.body))
  if ¬ matchFull ANCHORED_DIGEST digest then
    .error (.containerImageError ("Invalid digest: " ++ digest))
  else
    .ok digest

end ContainerImageRegistryClient

namespace ContainerImageManifestList

open Regex RE

/-- `get_entries`: `list(manifest_list.get("manifests"))`, each wrapped as
an (unvalidated) `ContainerImageManifestListEntry`. -/
def get_entries (manifest_list : Json) : Except PyErr (List Json) :=
  match manifest_list with
  | .obj kvs =>
      match Json.lookup kvs "manifests" with
      | some (.arr xs) => .ok xs
      | _ => .error (.typeError "object is not iterable")
  | _ => .error (.typeError "not a dict")

/-- `get_entry_sizes`: the sum of `entry.get_size()` over the entries. -/
def get_entry_sizes (manifest_list : Json) : Except PyErr Int := do
  let entries ← get_entries manifest_list
  entries.foldlM
    (fun size entry => do
      let s ← ContainerImageManifestListEntry.get_size entry
      pure (size + s))
    (0 : Int)

/-- The body of `ContainerImageManifestList.get_size`'s loop over the
manifest list entries, acting on the accumulated `(configs, layers,
entry_sizes)` state: read the entry's size and digest, fetch the arch
manifest for `name@digest`, and record its config and layer `(digest,
size)` pairs in the digest-keyed dicts. -/
def sizeLoopBody (fetch : String → Json) (name : String)
    (acc : List (String × Int) × List (String × Int) × Int) (entry : Json) :
    Except PyErr (List (String × Int) × List (String × Int) × Int) := do
  let entry_size ← ContainerImageManifestListEntry.get_size entry
  let manifest_digest ← ContainerImageManifestListEntry.get_digest entry
  let ref := name ++ "@" ++ manifest_digest
  let manifest ← ContainerImageRegistryClient.get_manifest fetch ref
  let manifest_layers ←
    ContainerImageManifest.get_layer_descriptors manifest
  let manifest_config ←
    ContainerImageManifest.get_config_descriptor manifest
  let config_digest ← ContainerImageDescriptor.get_digest manifest_config
  let config_size ← ContainerImageDescriptor.get_size manifest_config
  let configs := dictSet acc.1 config_digest config_size
  let layers ← manifest_layers.foldlM
    (fun d layer => do
      let layer_digest ← ContainerImageDescriptor.get_digest layer
      let layer_size ← ContainerImageDescriptor.get_size layer
      pure (dictSet d layer_digest layer_size))
    acc.2.1
  pure (configs, layers, acc.2.2 + entry_size)

/-- `ContainerImageManifestList.get_size(name, auth)`: an invalid name
returns the tuple `(False, msg)` (`Sum.inl`, faithfully to the source's
early `return False, ...`); otherwise one pass over the entries sums the
entry sizes verbatim and writes the child config and child layer
`(digest, size)` pairs into digest-keyed dicts, then adds both dicts'
value sums. -/
def get_size (fetch : String → Json) (manifest_list : Json) (name : String) :
    Except PyErr ((Bool × String) ⊕ Int) := do
  if ¬ matchFull ANCHORED_NAME name then
    pure (.inl (false, "Invalid name: " ++ name))
  else do
    let entries ← get_entries manifest_list
    let acc ← entries.foldlM (sizeLoopBody fetch name) ([], [], 0)
    pure (.inr (acc.2.2 + dictValuesSum acc.1 + dictValuesSum acc.2.1))

end ContainerImageManifestList

/-! ## Manifest factory (`image/manifestfactory.py`, `image/v2s2.py`,
`image/oci.py`) -/

namespace ContainerImageManifestV2S2

open Regex RE

/-- `ContainerImageManifestV2S2.validate_static`: v2s2 manifest schema,
then descriptor validation of the config and every layer, then rejection
of the OCI manifest mediaType. -/
def validate_static (manifest : Json) : Bool × String :=
  if ¬ Schema.manifestV2Ok manifest then
    (false, "jsonschema validation error")
  else
    match manifest with
    | .obj kvs =>
        let config := (Json.lookup kvs "config").getD .null
        let cv := ContainerImageDescriptor.validate_static config
        if ¬ cv.1 then (false, cv.2)
        else
          let layers := match Json.lookup kvs "layers" with
            | some (.arr xs) => xs
            | _ => []
          match layers.find? (fun l =>
              ¬ (ContainerImageDescriptor.validate_static l).1) with
          | some l => (false, (ContainerImageDescriptor.validate_static l).2)
          | none =>
              if Json.mediaTypeIs kvs
                  "application/vnd.oci.image.manifest.v1+json" then
                (false, "Unsupported mediaType")
              else (true, "")
    | _ => (false, "jsonschema validation error")

end ContainerImageManifestV2S2

namespace ContainerImageManifestListEntryV2S2

open Regex RE

/-- `ContainerImageManifestListEntryV2S2.validate_static`: v2s2 entry
schema, anchored digest check, platform validation. -/
def validate_static (entry : Json) : Bool × String :=
  if ¬ Schema.listEntryV2Ok entry then
    (false, "jsonschema validation error")
  else
    match entry with
    | .obj kvs =>
        match Json.lookup kvs "digest" with
        | some (.str d) =>
            if ¬ matchFull ANCHORED_DIGEST d then
              (false, "Invalid digest: " ++ d)
            else
              let pv := ContainerImagePlatform.validate_static
                ((Json.lookup kvs "platform").getD .null)
              if ¬ pv.1 then (false, pv.2) else (true, "")
        | _ => (false, "jsonschema validation error")
    | _ => (false, "jsonschema validation error")

end ContainerImageManifestListEntryV2S2

namespace ContainerImageManifestListV2S2

/-- `ContainerImageManifestListV2S2.validate_static`: v2s2 list schema,
every entry valid, and rejection of the OCI index mediaType. -/
def validate_static (manifest_list : Json) : Bool × String :=
  if ¬ Schema.manifestListV2Ok manifest_list then
    (false, "jsonschema validation error")
  else
    match manifest_list with
    | .obj kvs =>
        let entries := match Json.lookup kvs "manifests" with
          | some (.arr xs) => xs
          | _ => []
        match entries.find? (fun e =>
            ¬ (ContainerImageManifestListEntryV2S2.validate_static e).1) with
        | some e =>
            (false, (ContainerImageManifestListEntryV2S2.validate_static e).2)
        | none =>
            if Json.mediaTypeIs kvs
                "application/vnd.oci.image.index.v1+json" then
              (false, "Unsupported mediaType")
            else (true, "")
    | _ => (false, "jsonschema validation error")

end ContainerImageManifestListV2S2

namespace ContainerImageManifestOCI

/-- `ContainerImageManifestOCI.validate_static`: OCI manifest schema,
descriptor validation of config and layers, and rejection of the v2s2
manifest mediaType when a mediaType is present. -/
def validate_static (manifest : Json) : Bool × String :=
  if ¬ Schema.manifestOciOk manifest then
    (false, "jsonschema validation error")
  else
    match manifest with
    | .obj kvs =>
        let config := (Json.lookup kvs "config").getD .null
        let cv := ContainerImageDescriptor.validate_static config
        if ¬ cv.1 then (false, cv.2)
        else
          let layers := match Json.lookup kvs "layers" with
            | some (.arr xs) => xs
            | _ => []
          match layers.find? (fun l =>
              ¬ (ContainerImageDescriptor.validate_static l).1) with
          | some l => (false, (ContainerImageDescriptor.validate_static l).2)
          | none =>
              if Json.hasKey kvs "mediaType" then
                if Json.mediaTypeIs kvs
                    "application/vnd.docker.distribution.manifest.v2+json" then
                  (false, "Unsupported mediaType")
                else (true, "")
              else (true, "")
    | _ => (false, "jsonschema validation error")

end ContainerImageManifestOCI

namespace ContainerImageIndexEntryOCI

open Regex RE

/-- `ContainerImageIndexEntryOCI.validate_static`: OCI entry schema,
anchored digest check, platform validation only when a platform is
present. -/
def validate_static (entry : Json) : Bool × String :=
  if ¬ Schema.indexEntryOciOk entry then
    (false, "jsonschema validation error")
  else
    match entry with
    | .obj kvs =>
        match Json.lookup kvs "digest" with
        | some (.str d) =>
            if ¬ matchFull ANCHORED_DIGEST d then
              (false, "Invalid digest: " ++ d)
            else if Json.hasKey kvs "platform" then
              let pv := ContainerImagePlatform.validate_static
                ((Json.lookup kvs "platform").getD .null)
              if ¬ pv.1 then (false, pv.2) else (true, "")
            else (true, "")
        | _ => (false, "jsonschema validation error")
    | _ => (false, "jsonschema validation error")

end ContainerImageIndexEntryOCI

namespace ContainerImageIndexOCI

/-- `ContainerImageIndexOCI.validate_static`: OCI index schema, every
entry valid, and rejection of the v2s2 list mediaType when a mediaType is
present. -/
def validate_static (manifest_list : Json) : Bool × String :=
  if ¬ Schema.indexOciOk manifest_list then
    (false, "jsonschema validation error")
  else
    match manifest_list with
    | .obj kvs =>
        let entries := match Json.lookup kvs "manifests" with
          | some (.arr xs) => xs
          | _ => []
        match entries.find? (fun e =>
            ¬ (ContainerImageIndexEntryOCI.validate_static e).1) with
        | some e => (false, (ContainerImageIndexEntryOCI.validate_static e).2)
        | none =>
            if Json.hasKey kvs "mediaType" then
              if Json.mediaTypeIs kvs
                  "application/vnd.docker.distribution.manifest.list.v2+json" then
                (false, "Unsupported mediaType")
              else (true, "")
            else (true, "")
    | _ => (false, "jsonschema validation error")

end ContainerImageIndexOCI

/-- The four typed results `ContainerImageManifestFactory.create` can
produce. -/
inductive ManifestVariant where
  | v2s2Manifest (m : Json) : ManifestVariant
  | v2s2ManifestList (m : Json) : ManifestVariant
  | ociManifest (m : Json) : ManifestVariant
  | ociIndex (m : Json) : ManifestVariant

namespace ContainerImageManifestFactory

/-- `ContainerImageManifestFactory.create`: probe v2s2 manifest, v2s2
manifest list, OCI manifest, OCI index in that order; return the first
match, or raise `ContainerImageError` carrying the serialized document. -/
def create (manifest_or_list : Json) : Except PyErr ManifestVariant :=
  if (ContainerImageManifestV2S2.validate_static manifest_or_list).1 then
    .ok (.v2s2Manifest manifest_or_list)
  else if (ContainerImageManifestListV2S2.validate_static manifest_or_list).1
      then
    .ok (.v2s2ManifestList manifest_or_list)
  else if (ContainerImageManifestOCI.validate_static manifest_or_list).1 then
    .ok (.ociManifest manifest_or_list)
  else if (ContainerImageIndexOCI.validate_static manifest_or_list).1 then
    .ok (.ociIndex manifest_or_list)
  else
    .error (.containerImageError
      ("Invalid schema, not v2s2 or OCI manifest or list: "
        ++ PyJson.dumps manifest_or_list))

end ContainerImageManifestFactory

/-! ## Image facade and image lists (`image/containerimage.py`) -/

namespace ContainerImage

/-- What the manifest query inside `ContainerImage.exists` does: succeed,
raise `requests.HTTPError` with some final response status, or raise some
other exception. -/
inductive FetchOutcome where
  | success : FetchOutcome
  | httpError (status : Nat) : FetchOutcome
  | otherError (e : PyErr) : FetchOutcome

/-- `ContainerImage.exists`: `True` on success; on `requests.HTTPError`,
`False` when the response status is 404 and re-raise otherwise; any other
exception propagates. -/
def existsPy : FetchOutcome → Except PyErr Bool
  | .success => .ok true
  | .httpError status =>
      if status == 404 then .ok false else .error (.httpError status)
  | .otherError e => .error e

end ContainerImage

namespace ContainerImageList

/-- The name-keyed map built by `ContainerImageList.diff`: for each image
name, the optional current-side and previous-side reference. -/
abbrev DiffMap := List (String × (Option String × Option String))

/-- `images[image_name]['current'] = image` (inserting
`images[image_name] = {}` first when the name is new). -/
def setCurrent (m : DiffMap) (name ref : String) : DiffMap :=
  if m.any (fun p => p.1 == name) then
    m.map (fun p => if p.1 == name then (p.1, (some ref, p.2.2)) else p)
  else
    m ++ [(name, (some ref, none))]

/-- `images[image_name]['previous'] = image` (inserting
`images[image_name] = {}` first when the name is new). -/
def setPrevious (m : DiffMap) (name ref : String) : DiffMap :=
  if m.any (fun p => p.1 == name) then
    m.map (fun p => if p.1 == name then (p.1, (p.2.1, some ref)) else p)
  else
    m ++ [(name, (none, some ref))]

/-- The four buckets of a `ContainerImageListDiff`. -/
structure DiffResult where
  added : List String
  removed : List String
  updated : List String
  common : List String
deriving DecidableEq, Repr

/-- One step of `diff`'s first loop: record `ref` as the current-side
image for its name. -/
def currentLoopBody (m : DiffMap) (ref : String) : Except PyErr DiffMap := do
  let image_name ← ContainerImageReference.get_name ref
  pure (setCurrent m image_name ref)

/-- One step of `diff`'s second loop: record `ref` as the previous-side
image for its name. -/
def previousLoopBody (m : DiffMap) (ref : String) : Except PyErr DiffMap := do
  let image_name ← ContainerImageReference.get_name ref
  pure (setPrevious m image_name ref)

/-- One step of `diff`'s classification loop over the name-keyed map. -/
def classifyLoopBody (acc : DiffResult)
    (entry : String × (Option String × Option String)) :
    Except PyErr DiffResult := do
  match entry.2 with
  | (some c, some p) => do
      let current_identifier ← ContainerImageReference.get_identifier c
      let previous_identifier ← ContainerImageReference.get_identifier p
      if current_identifier == previous_identifier then
        pure { acc with common := acc.common ++ [c] }
      else
        pure { acc with updated := acc.updated ++ [c] }
  | (some c, none) => pure { acc with added := acc.added ++ [c] }
  | (none, some p) => pure { acc with removed := acc.removed ++ [p] }
  | (none, none) => pure acc

/-- `ContainerImageList.diff(previous)`: group by `get_name`, then
classify each name by presence on either side and by `get_identifier`
equality. -/
def diff (current previous : List String) : Except PyErr DiffResult := do
  let m1 ← current.foldlM currentLoopBody ([] : DiffMap)
  let m ← previous.foldlM previousLoopBody m1
  m.foldlM classifyLoopBody (⟨[], [], [], []⟩ : DiffResult)

end ContainerImageList

/-! ## Spec-side views

Total projections used to state the specification-level descriptions that
the embedded code is compared against. -/

/-- The `digest` string field of a descriptor-shaped dict (spec view;
total, defaulting to `""`). -/
def descDigest (d : Json) : String :=
  match d with
  | .obj kvs =>
      match Json.lookup kvs "digest" with
      | some (.str s) => s
      | _ => ""
  | _ => ""

/-- The `size` integer field of a descriptor-shaped dict (spec view;
total, defaulting to `0`). -/
def descSize (d : Json) : Int :=
  match d with
  | .obj kvs =>
      match Json.lookup kvs "size" with
      | some (.num n) => n
      | _ => 0
  | _ => 0

/-- Deduplicate `(digest, size)` pairs into a digest-keyed dict with
Python-dict assignment semantics. -/
def foldDict (pairs : List (String × Int)) : List (String × Int) :=
  pairs.foldl (fun d p => dictSet d p.1 p.2) []

/-- The sum of sizes after de-duplicating by digest: total of the
digest-keyed dict built from the pairs. -/
def dedupSizeSum (pairs : List (String × Int)) : Int :=
  dictValuesSum (foldDict pairs)

/-- The spec's string form of a platform: `os/architecture`, with
`/variant` appended exactly when the variant field is present. -/
def specPlatformStringForm (p : Json) : String :=
  match p with
  | .obj kvs =>
      (match Json.lookup kvs "os" with | some (.str s) => s | _ => "") ++ "/"
        ++ (match Json.lookup kvs "architecture" with
            | some (.str s) => s
            | _ => "")
        ++ (match Json.lookup kvs "variant" with
            | some (.str v) => "/" ++ v
            | _ => "")
  | _ => ""

/-! ## Canonical example documents

The CNCF v2s2 examples are the ones the repository's test suite uses; the
OCI examples are the canonical ones from the OCI image spec. -/

namespace Examples

/-- The canonical CNCF v2s2 manifest example. -/
def cncfManifestExample : Json := .obj [
  ("schemaVersion", .num 2),
  ("mediaType", .str "application/vnd.docker.distribution.manifest.v2+json"),
  ("config", .obj [
    ("mediaType", .str "application/vnd.docker.container.image.v1+json"),
    ("digest",
     .str "sha256:b5b2b2c507a0944348e0303114d8d93aaaa081732b86451d9bce1f432a537bc7"),
    ("size", .num 7023)]),
  ("layers", .arr [
    .obj [
      ("mediaType", .str "application/vnd.docker.image.rootfs.diff.tar.gzip"),
      ("digest",
       .str "sha256:e692418e4cbaf90ca69d05a66403747baa33ee08806650b51fab815ad7fc331f"),
      ("size", .num 32654)],
    .obj [
      ("mediaType", .str "application/vnd.docker.image.rootfs.diff.tar.gzip"),
      ("digest",
       .str "sha256:3c3a4604a545cdc127456d94e421cd355bca5b528f4a9c1905b15da2eb4a4c6b"),
      ("size", .num 16724)],
    .obj [
      ("mediaType", .str "application/vnd.docker.image.rootfs.diff.tar.gzip"),
      ("digest",
       .str "sha256:ec4b8955958665577945c89419d1af06b5f7636b4ac3da7f12184802ad867736"),
      ("size", .num 73109)]])]

/-- The canonical CNCF v2s2 manifest list example. -/
def cncfManifestListExample : Json := .obj [
  ("schemaVersion", .num 2),
  ("mediaType",
   .str "application/vnd.docker.distribution.manifest.list.v2+json"),
  ("manifests", .arr [
    .obj [
      ("mediaType",
       .str "application/vnd.docker.distribution.manifest.v2+json"),
      ("digest",
       .str "sha256:e692418e4cbaf90ca69d05a66403747baa33ee08806650b51fab815ad7fc331f"),
      ("size", .num 7143),
      ("platform", .obj [
        ("architecture", .str "ppc64le"),
        ("os", .str "linux")])],
    .obj [
      ("mediaType",
       .str "application/vnd.docker.distribution.manifest.v2+json"),
      ("digest",
       .str "sha256:5b0bcabd1ed22e9fb1310cf6c2dec7cdef19f0ad69efa1f392e94a4333501270"),
      ("size", .num 7682),
      ("platform", .obj [
        ("architecture", .str "amd64"),
        ("os", .str "linux"),
        ("features", .arr [.str "sse4"])])]])]

/-- The canonical OCI image manifest example. -/
def ociManifestExample : Json := .obj [
  ("schemaVersion", .num 2),
  ("mediaType", .str "application/vnd.oci.image.manifest.v1+json"),
  ("config", .obj [
    ("mediaType", .str "application/vnd.oci.image.config.v1+json"),
    ("digest",
     .str "sha256:b5b2b2c507a0944348e0303114d8d93aaaa081732b86451d9bce1f432a537bc7"),
    ("size", .num 7023)]),
  ("layers", .arr [
    .obj [
      ("mediaType", .str "application/vnd.oci.image.layer.v1.tar+gzip"),
      ("digest",
       .str "sha256:9834876dcfb05cb167a5c24953eba58c4ac89b1adf57f28f2f9d09af107ee8f0"),
      ("size", .num 32654)],
    .obj [
      ("mediaType", .str "application/vnd.oci.image.layer.v1.tar+gzip"),
      ("digest",
       .str "sha256:3c3a4604a545cdc127456d94e421cd355bca5b528f4a9c1905b15da2eb4a4c6b"),
      ("size", .num 16724)]]),
  ("annotations", .obj [
    ("com.example.key1", .str "value1")])]

/-- The canonical OCI image index example. -/
def ociIndexExample : Json := .obj [
  ("schemaVersion", .num 2),
  ("mediaType", .str "application/vnd.oci.image.index.v1+json"),
  ("manifests", .arr [
    .obj [
      ("mediaType", .str "application/vnd.oci.image.manifest.v1+json"),
      ("digest",
       .str "sha256:e692418e4cbaf90ca69d05a66403747baa33ee08806650b51fab815ad7fc331f"),
      ("size", .num 7143),
      ("platform", .obj [
        ("architecture", .str "ppc64le"),
        ("os", .str "linux")])],
    .obj [
      ("mediaType", .str "application/vnd.oci.image.manifest.v1+json"),
      ("digest",
       .str "sha256:5b0bcabd1ed22e9fb1310cf6c2dec7cdef19f0ad69efa1f392e94a4333501270"),
      ("size", .num 7682),
      ("platform", .obj [
        ("architecture", .str "arm64"),
        ("os", .str "linux"),
        ("variant", .str "v8")])]]),
  ("annotations", .obj [
    ("com.example.key1", .str "value1")])]

/-- Scenario S6, first fat-manifest entry. -/
def s6EntryOne : Json := .obj [
  ("digest",
   .str "sha256:1111111111111111111111111111111111111111111111111111111111111111"),
  ("size", .num 500)]

/-- Scenario S6, second fat-manifest entry. -/
def s6EntryTwo : Json := .obj [
  ("digest",
   .str "sha256:2222222222222222222222222222222222222222222222222222222222222222"),
  ("size", .num 600)]

/-- Scenario S6, the fat manifest's entries. -/
def s6Entries : List Json := [s6EntryOne, s6EntryTwo]

/-- Scenario S6, the fat manifest itself. -/
def s6ListDoc : Json := .obj [("manifests", .arr s6Entries)]

/-- Scenario S6, first arch child: config 100 bytes, one 1000-byte
layer. -/
def s6ChildA : Json := .obj [
  ("schemaVersion", .num 2),
  ("config", .obj [
    ("mediaType", .str "application/vnd.oci.image.config.v1+json"),
    ("digest",
     .str "sha256:3333333333333333333333333333333333333333333333333333333333333333"),
    ("size", .num 100)]),
  ("layers", .arr [
    .obj [
      ("mediaType", .str "application/vnd.oci.image.layer.v1.tar+gzip"),
      ("digest",
       .str "sha256:5555555555555555555555555555555555555555555555555555555555555555"),
      ("size", .num 1000)]])]

/-- Scenario S6, second arch child with its own distinct 1000-byte
layer. -/
def s6ChildB : Json := .obj [
  ("schemaVersion", .num 2),
  ("config", .obj [
    ("mediaType", .str "application/vnd.oci.image.config.v1+json"),
    ("digest",
     .str "sha256:4444444444444444444444444444444444444444444444444444444444444444"),
    ("size", .num 200)]),
  ("layers", .arr [
    .obj [
      ("mediaType", .str "application/vnd.oci.image.layer.v1.tar+gzip"),
      ("digest",
       .str "sha256:6666666666666666666666666666666666666666666666666666666666666666"),
      ("size", .num 1000)]])]

/-- Scenario S6, second arch child sharing the first child's layer (same
digest, same 1000-byte size). -/
def s6ChildBShared : Json := .obj [
  ("schemaVersion", .num 2),
  ("config", .obj [
    ("mediaType", .str "application/vnd.oci.image.config.v1+json"),
    ("digest",
     .str "sha256:4444444444444444444444444444444444444444444444444444444444444444"),
    ("size", .num 200)]),
  ("layers", .arr [
    .obj [
      ("mediaType", .str "application/vnd.oci.image.layer.v1.tar+gzip"),
      ("digest",
       .str "sha256:5555555555555555555555555555555555555555555555555555555555555555"),
      ("size", .num 1000)]])]

/-- Scenario S6 registry state with distinct child layers. -/
def s6FetchDistinct : String → Json := fun ref =>
  if ref
      = "reg.io/app@sha256:1111111111111111111111111111111111111111111111111111111111111111"
    then s6ChildA
  else if ref
      = "reg.io/app@sha256:2222222222222222222222222222222222222222222222222222222222222222"
    then s6ChildB
  else .null

/-- Scenario S6 registry state where the second arch shares the first
arch's layer. -/
def s6FetchShared : String → Json := fun ref =>
  if ref
      = "reg.io/app@sha256:1111111111111111111111111111111111111111111111111111111111111111"
    then s6ChildA
  else if ref
      = "reg.io/app@sha256:2222222222222222222222222222222222222222222222222222222222222222"
    then s6ChildBShared
  else .null

/-- Scenario S7 current image list. -/
def s7Current : List String :=
  ["reg.io/img1:a", "reg.io/img2:t",
   "reg.io/img3@sha256:aaaaaaaaaaaaaaaaaaaaaaaaaaaaaaaaaaaaaaaaaaaaaaaaaaaaaaaaaaaaaaaa",
   "reg.io/new5:t"]

/-- Scenario S7 previous image list. -/
def s7Previous : List String :=
  ["reg.io/img1:b", "reg.io/img2:t",
   "reg.io/img3@sha256:bbbbbbbbbbbbbbbbbbbbbbbbbbbbbbbbbbbbbbbbbbbbbbbbbbbbbbbbbbbbbbbb",
   "reg.io/old4:t"]

end Examples

end ContainerImagePy

deriving instance DecidableEq for Except

namespace ContainerImagePy

open RE Regex

/-! ## Monad-plumbing lemmas for `Except` -/

@[simp] theorem except_error_bind {ε α β : Type} (e : ε)
    (f : α → Except ε β) : (Except.error e >>= f) = Except.error e := rfl

@[simp] theorem except_ok_bind {ε α β : Type} (a : α)
    (f : α → Except ε β) : (Except.ok a >>= f) = f a := rfl

@[simp] theorem except_map_error {ε α β : Type} (f : α → β) (e : ε) :
    (f <$> (Except.error e : Except ε α)) = Except.error e := rfl

@[simp] theorem except_map_ok {ε α β : Type} (f : α → β) (a : α) :
    (f <$> (Except.ok a : Except ε α)) = Except.ok (f a) := rfl

@[simp] theorem except_pure {ε α : Type} (a : α) :
    (pure a : Except ε α) = Except.ok a := rfl

/-! ## Claim C1 — digest canonicalization (`get_digest`, computed branch) -/

/-- C1: when the manifest response lacks the `Docker-Content-Digest`
header, `get_digest` hashes the canonicalized body but returns the bare
hex digest without the `sha256:` prefix, so its own anchored-digest
validation always fails and it raises `ContainerImageError` instead of
returning.  At the concrete bodyless response `{}`: the computed value is
the bare SHA-256 hex of `json.dumps({}, indent=3).encode('utf-8')`, that
bare hex does not match the anchored digest pattern, the `sha256:`-prefixed
form demanded by the claim does match, and `get_digest` errors. -/
theorem C1_get_digest_computed_branch_raises :
    SHA256.hexdigest (utf8Encode (PyJson.dumpsIndent 3 0 (Json.obj [])))
      = "44136fa355b3678a1146ad16f7e8649e94fb4fc21fe77e8310c060f61caaff8a"
    ∧ matchFull ANCHORED_DIGEST
        "44136fa355b3678a1146ad16f7e8649e94fb4fc21fe77e8310c060f61caaff8a"
      = false
    ∧ matchFull ANCHORED_DIGEST
        "sha256:44136fa355b3678a1146ad16f7e8649e94fb4fc21fe77e8310c060f61caaff8a"
      = true
    ∧ ContainerImageRegistryClient.get_digest
        ⟨[("Content-Type", "application/json")], Json.obj []⟩
      = .error (.containerImageError
          ("Invalid digest: "
            ++ "44136fa355b3678a1146ad16f7e8649e94fb4fc21fe77e8310c060f61caaff8a"))
  := by
  refine ⟨by rfl, by rfl, by rfl, by rfl⟩

/-! ## Claim C6 — `get_name` / `get_registry` on valid references -/

/-- C6: `get_name` strips at the first `:` of the digestless head, so a
registry with a port loses its port and everything after it.  At the valid
reference `localhost:5000/ubuntu:v1` (whose NAME part is
`localhost:5000/ubuntu` and whose tag is `v1`) the code returns the name
`localhost` and the registry `localhost`, not the NAME part demanded by
the claim.  The portless scenario-S1 reference is parsed as the claim
describes. -/
theorem C6_get_name_truncates_port_references :
    matchFull REFERENCE_PAT "localhost:5000/ubuntu:v1" = true
    ∧ matchFull ANCHORED_NAME "localhost:5000/ubuntu" = true
    ∧ matchFull ANCHORED_TAG "v1" = true
    ∧ "localhost:5000/ubuntu:v1" = "localhost:5000/ubuntu" ++ ":" ++ "v1"
    ∧ ContainerImageReference.get_name "localhost:5000/ubuntu:v1"
        = .ok "localhost"
    ∧ ContainerImageReference.get_registry "localhost:5000/ubuntu:v1"
        = .ok "localhost"
    ∧ ContainerImageReference.get_name
        "quay.io/ibm/software/cloudpak/hello-world:latest"
        = .ok "quay.io/ibm/software/cloudpak/hello-world"
    ∧ ContainerImageReference.get_registry
        "quay.io/ibm/software/cloudpak/hello-world:latest"
        = .ok "quay.io"
  := by
  refine ⟨by rfl, by rfl, by rfl, by rfl, by rfl, by rfl, by rfl, by rfl⟩

/-! ## Claim C7 — `exists` status handling -/

/-- C7: `exists` returns `True` when the manifest fetch succeeds, `False`
exactly when the fetch raises an HTTP error whose final response status is
404, re-raises an HTTP error with any other status unmodified, and lets
every other exception propagate. -/
theorem C7_exists_status_handling :
    ContainerImage.existsPy .success = .ok true
    ∧ ContainerImage.existsPy (.httpError 404) = .ok false
    ∧ (∀ s, s ≠ 404 →
        ContainerImage.existsPy (.httpError s) = .error (.httpError s))
    ∧ (∀ e, ContainerImage.existsPy (.otherError e) = .error e) := by
  refine ⟨rfl, rfl, ?_, fun e => rfl⟩
  intro s hs
  simp [ContainerImage.existsPy, hs]

/-- C7 witness: a non-404 HTTP error is re-raised. -/
theorem C7_exists_status_handling_witness :
    ContainerImage.existsPy (.httpError 500) = .error (.httpError 500) :=
  C7_exists_status_handling.2.2.1 500 (by decide)

/-! ## Claim C10 — empty `layers` array -/

/-- C10: a manifest whose `layers` array is empty makes
`get_layer_descriptors` raise `ValueError("No layers found")` rather than
return an empty list, and `get_size` on such a manifest is an error as
well rather than the bare config size. -/
theorem C10_empty_layers_error :
    ∀ kvs, Json.lookup kvs "layers" = some (.arr []) →
      ContainerImageManifest.get_layer_descriptors (.obj kvs)
        = .error (.valueError "No layers found")
      ∧ ∃ e, ContainerImageManifest.get_size (.obj kvs) = .error e := by
  intro kvs h
  have hl : ContainerImageManifest.get_layer_descriptors (.obj kvs)
      = .error (.valueError "No layers found") := by
    simp [ContainerImageManifest.get_layer_descriptors, h]
  refine ⟨hl, ?_⟩
  cases hc : ContainerImageManifest.get_config_descriptor (.obj kvs) with
  | error e =>
      exact ⟨e, by simp [ContainerImageManifest.get_size, hc]⟩
  | ok c =>
      cases hs : ContainerImageDescriptor.get_size c with
      | error e =>
          exact ⟨e, by simp [ContainerImageManifest.get_size, hc, hs]⟩
      | ok n =>
          exact ⟨.valueError "No layers found",
            by simp [ContainerImageManifest.get_size, hc, hs, hl]⟩

/-! ## Claim C2 — longest-prefix credential selection -/

/-- The first component of the selection fold never shrinks. -/
theorem authFold_fst_mono (ref : String) :
    ∀ (keys : List String) (acc : String × Bool),
      acc.1.length ≤ (keys.foldl (ContainerImageRegistryClient.authSelStep ref)
        acc).1.length := by
  intro keys
  induction keys with
  | nil => intro acc; simp
  | cons k ks ih =>
      intro acc
      have hstep : acc.1.length
          ≤ (ContainerImageRegistryClient.authSelStep ref acc k).1.length := by
        unfold ContainerImageRegistryClient.authSelStep
        by_cases hs : pyStartsWith ref k
        · by_cases hl : k.length > acc.1.length
          · simp only [hs, hl, not_true_eq_false, if_false, if_true]
            omega
          · simp [hs, hl]
        · simp [hs]
      simpa using le_trans hstep
        (ih (ContainerImageRegistryClient.authSelStep ref acc k))

/-- The selected string is either the initial accumulator or one of the
keys that is a leading substring of the reference. -/
theorem authFold_fst_cases (ref : String) :
    ∀ (keys : List String) (acc : String × Bool),
      (keys.foldl (ContainerImageRegistryClient.authSelStep ref) acc).1 = acc.1
      ∨ ((keys.foldl (ContainerImageRegistryClient.authSelStep ref) acc).1
            ∈ keys
        ∧ pyStartsWith ref
            (keys.foldl (ContainerImageRegistryClient.authSelStep ref) acc).1
          = true) := by
  intro keys
  induction keys with
  | nil => intro acc; left; rfl
  | cons k ks ih =>
      intro acc
      simp only [List.foldl_cons]
      by_cases hs : pyStartsWith ref k
      · by_cases hl : k.length > acc.1.length
        · have hstep : ContainerImageRegistryClient.authSelStep ref acc k
              = (k, true) := by
            simp [ContainerImageRegistryClient.authSelStep, hs, hl]
          rw [hstep]
          rcases ih (k, true) with h | h
          · right
            exact ⟨by rw [h]; exact List.mem_cons_self k ks, by rw [h]; exact hs⟩
          · right
            exact ⟨List.mem_cons_of_mem k h.1, h.2⟩
        · have hstep : ContainerImageRegistryClient.authSelStep ref acc k
              = acc := by
            simp [ContainerImageRegistryClient.authSelStep, hs, hl]
          rw [hstep]
          rcases ih acc with h | h
          · left; exact h
          · right; exact ⟨List.mem_cons_of_mem k h.1, h.2⟩
      · have hstep : ContainerImageRegistryClient.authSelStep ref acc k
            = acc := by
          simp [ContainerImageRegistryClient.authSelStep, hs]
        rw [hstep]
        rcases ih acc with h | h
        · left; exact h
        · right; exact ⟨List.mem_cons_of_mem k h.1, h.2⟩

/-- Every matching key's length is bounded by the selected string's. -/
theorem authFold_fst_ub (ref : String) :
    ∀ (keys : List String) (acc : String × Bool),
      ∀ k ∈ keys, pyStartsWith ref k = true →
      k.length ≤ (keys.foldl (ContainerImageRegistryClient.authSelStep ref)
        acc).1.length := by
  intro keys
  induction keys with
  | nil => intro acc k hk; cases hk
  | cons k0 ks ih =>
      intro acc k hk hs
      simp only [List.foldl_cons]
      rcases List.mem_cons.mp hk with rfl | hmem
      · by_cases hl : k.length > acc.1.length
        · have hstep : ContainerImageRegistryClient.authSelStep ref acc k
              = (k, true) := by
            simp [ContainerImageRegistryClient.authSelStep, hs, hl]
          rw [hstep]
          simpa using authFold_fst_mono ref ks (k, true)
        · have hstep : ContainerImageRegistryClient.authSelStep ref acc k
              = acc := by
            simp [ContainerImageRegistryClient.authSelStep, hs, hl]
          rw [hstep]
          have := authFold_fst_mono ref ks acc
          omega
      · exact ih (ContainerImageRegistryClient.authSelStep ref acc k0) k hmem hs

/-- The found-flag after the fold: already set, or some key matches and
strictly exceeds the initial length. -/
theorem authFold_snd (ref : String) :
    ∀ (keys : List String) (acc : String × Bool),
      (keys.foldl (ContainerImageRegistryClient.authSelStep ref) acc).2
        = (acc.2 || keys.any
            (fun k => pyStartsWith ref k && decide (acc.1.length < k.length)))
      := by
  intro keys
  induction keys with
  | nil => intro acc; simp
  | cons k ks ih =>
      intro acc
      simp only [List.foldl_cons, List.any_cons]
      by_cases hs : pyStartsWith ref k
      · by_cases hl : k.length > acc.1.length
        · have hstep : ContainerImageRegistryClient.authSelStep ref acc k
              = (k, true) := by
            simp [ContainerImageRegistryClient.authSelStep, hs, hl]
          rw [hstep, ih (k, true)]
          simp [hs, hl]
        · have hstep : ContainerImageRegistryClient.authSelStep ref acc k
              = acc := by
            simp [ContainerImageRegistryClient.authSelStep, hs, hl]
          rw [hstep, ih acc]
          have : decide (acc.1.length < k.length) = false := by
            simp; omega
          simp [hs, this]
      · have hstep : ContainerImageRegistryClient.authSelStep ref acc k
            = acc := by
          simp [ContainerImageRegistryClient.authSelStep, hs]
        rw [hstep, ih acc]
        simp [hs]

/-- Two leading substrings of one string with equal lengths are equal. -/
theorem startsWith_eq_of_length_eq {s a b : String}
    (ha : pyStartsWith s a = true) (hb : pyStartsWith s b = true)
    (hlen : a.length = b.length) : a = b := by
  unfold pyStartsWith at ha hb
  rw [List.isPrefixOf_iff_prefix] at ha hb
  have hab : a.data <+: b.data :=
    List.prefix_of_prefix_length_le ha hb (le_of_eq hlen)
  have hd : a.data = b.data := List.IsPrefix.eq_of_length hab hlen
  cases a
  cases b
  exact congrArg String.mk hd

/-- C2 (amended): the registry auth is selected by longest prefix among
the non-empty keys of `auths`.  When no non-empty key is a leading
substring of the reference, the result is `("", False)`.  When `k` is the
longest matching non-empty key and its entry is `ekvs`, the result is
`(ekvs["auth"], True)`, or the `No auth key` exception when `ekvs` lacks
the `auth` field — regardless of the shape of every other entry. -/
theorem C2_longest_prefix_auth_selection :
    ∀ (ref : String) (auth auths : List (String × Json)),
      matchFull REFERENCE_PAT ref = true →
      Json.lookup auth "auths" = some (.obj auths) →
      ((∀ k, k ∈ auths.map (fun p => p.1) → pyStartsWith ref k = true →
          k = "") →
        ContainerImageRegistryClient.get_registry_auth ref auth
          = .ok (.str "", false))
      ∧ (∀ k, k ∈ auths.map (fun p => p.1) → pyStartsWith ref k = true →
          0 < k.length →
          (∀ k', k' ∈ auths.map (fun p => p.1) → pyStartsWith ref k' = true →
            k'.length ≤ k.length) →
          ∀ ekvs, Json.lookup auths k = some (.obj ekvs) →
            (∀ a, Json.lookup ekvs "auth" = some a →
              ContainerImageRegistryClient.get_registry_auth ref auth
                = .ok (a, true))
            ∧ (Json.lookup ekvs "auth" = none →
              ContainerImageRegistryClient.get_registry_auth ref auth
                = .error (.exception ("No auth key for registry " ++ k)))) := by
  intro ref auth auths _href hlk
  constructor
  · intro hnone
    have hsnd : ((auths.map (fun p => p.1)).foldl
        (ContainerImageRegistryClient.authSelStep ref) ("", false)).2 = false
        := by
      rw [authFold_snd]
      simp only [Bool.false_or]
      rw [List.any_eq_false]
      intro k hk
      by_cases hs : pyStartsWith ref k
      · have : k = "" := hnone k hk hs
        subst this
        simp
      · simp [hs]
    unfold ContainerImageRegistryClient.get_registry_auth
    rw [hlk]
    simp only [except_ok_bind]
    rw [hsnd]
    simp
  · intro k hk hs hpos hmax ekvs hek
    have hub := authFold_fst_ub ref (auths.map (fun p => p.1)) ("", false)
      k hk hs
    have hcases := authFold_fst_cases ref (auths.map (fun p => p.1))
      ("", false)
    have hfst : ((auths.map (fun p => p.1)).foldl
        (ContainerImageRegistryClient.authSelStep ref) ("", false)).1 = k := by
      rcases hcases with h | ⟨hmem, hsw⟩
      · rw [h] at hub
        simp at hub
        omega
      · have h1 := hmax _ hmem hsw
        exact startsWith_eq_of_length_eq hsw hs (by omega)
    have hsnd : ((auths.map (fun p => p.1)).foldl
        (ContainerImageRegistryClient.authSelStep ref) ("", false)).2 = true
        := by
      rw [authFold_snd]
      simp only [Bool.false_or]
      rw [List.any_eq_true]
      refine ⟨k, hk, ?_⟩
      simp [hs]
      omega
    constructor
    · intro a ha
      unfold ContainerImageRegistryClient.get_registry_auth
      rw [hlk]
      simp only [except_ok_bind]
      rw [hfst, hsnd, hek]
      simp [ha]
    · intro ha
      unfold ContainerImageRegistryClient.get_registry_auth
      rw [hlk]
      simp only [except_ok_bind]
      rw [hfst, hsnd, hek]
      simp [ha]

/-- C2 witness: the S4 scenario — four keys, three of which are leading
substrings of the reference; the longest is selected and its auth
returned. -/
theorem C2_longest_prefix_auth_selection_witness :
    ContainerImageRegistryClient.get_registry_auth
        "quay.io/ibm/software/cloudpak/hello-world:latest"
        [("auths", .obj [
          ("quay.io", .obj [("auth", .str "a1")]),
          ("quay.io/ibm", .obj [("auth", .str "a2")]),
          ("quay.io/ibm/software/cloudpak", .obj [("auth", .str "a3")]),
          ("not.my/registry", .obj [("auth", .str "a4")])])]
      = .ok (.str "a3", true) :=
  ((C2_longest_prefix_auth_selection
      "quay.io/ibm/software/cloudpak/hello-world:latest" _ _
      (by rfl) (by rfl)).2
    "quay.io/ibm/software/cloudpak" (by decide) (by rfl) (by decide)
    (by decide) _ (by rfl)).1 (.str "a3") (by rfl)

/-- C2 counterexample to the claim as stated: the empty-string key is a
leading substring of every reference (so the claim would select its entry
and return its auth with found = true), but the strict
`len(key) > len(last_match)` comparison never lets it win, and the code
returns `("", False)`. -/
theorem C2_empty_key_counterexample :
    pyStartsWith "quay.io/team/app:latest" "" = true
    ∧ matchFull REFERENCE_PAT "quay.io/team/app:latest" = true
    ∧ ContainerImageRegistryClient.get_registry_auth "quay.io/team/app:latest"
        [("auths", .obj [("", .obj [("auth", .str "x")])])]
      = .ok (.str "", false)
    ∧ ¬ (ContainerImageRegistryClient.get_registry_auth
          "quay.io/team/app:latest"
          [("auths", .obj [("", .obj [("auth", .str "x")])])]
        = .ok (.str "x", true)) := by
  refine ⟨by rfl, by rfl, by rfl, ?_⟩
  intro h
  rw [show ContainerImageRegistryClient.get_registry_auth
      "quay.io/team/app:latest"
      [("auths", .obj [("", .obj [("auth", .str "x")])])]
      = .ok (.str "", false) from by rfl] at h
  simp at h

/-! ## Claim C3 — factory dispatch -/

/-- C3: the factory probes v2s2 manifest, v2s2 manifest list, OCI
manifest, OCI index in that fixed order and returns the first variant
whose validator accepts; when none accepts (as for `{}`) it raises
`InvalidManifest` carrying the serialized document; each canonical example
is dispatched to its own variant and rejected by the other three
validators. -/
theorem C3_factory_first_match_dispatch :
    (∀ doc,
      ((ContainerImageManifestV2S2.validate_static doc).1 = true →
        ContainerImageManifestFactory.create doc = .ok (.v2s2Manifest doc))
      ∧ ((ContainerImageManifestV2S2.validate_static doc).1 = false →
          (ContainerImageManifestListV2S2.validate_static doc).1 = true →
          ContainerImageManifestFactory.create doc
            = .ok (.v2s2ManifestList doc))
      ∧ ((ContainerImageManifestV2S2.validate_static doc).1 = false →
          (ContainerImageManifestListV2S2.validate_static doc).1 = false →
          (ContainerImageManifestOCI.validate_static doc).1 = true →
          ContainerImageManifestFactory.create doc = .ok (.ociManifest doc))
      ∧ ((ContainerImageManifestV2S2.validate_static doc).1 = false →
          (ContainerImageManifestListV2S2.validate_static doc).1 = false →
          (ContainerImageManifestOCI.validate_static doc).1 = false →
          (ContainerImageIndexOCI.validate_static doc).1 = true →
          ContainerImageManifestFactory.create doc = .ok (.ociIndex doc))
      ∧ ((ContainerImageManifestV2S2.validate_static doc).1 = false →
          (ContainerImageManifestListV2S2.validate_static doc).1 = false →
          (ContainerImageManifestOCI.validate_static doc).1 = false →
          (ContainerImageIndexOCI.validate_static doc).1 = false →
          ContainerImageManifestFactory.create doc
            = .error (.containerImageError
                ("Invalid schema, not v2s2 or OCI manifest or list: "
                  ++ PyJson.dumps doc))))
    ∧ ContainerImageManifestFactory.create (.obj [])
        = .error (.containerImageError
            "Invalid schema, not v2s2 or OCI manifest or list: \x7b\x7d")
    ∧ (ContainerImageManifestFactory.create Examples.cncfManifestExample
          = .ok (.v2s2Manifest Examples.cncfManifestExample)
        ∧ (ContainerImageManifestListV2S2.validate_static
            Examples.cncfManifestExample).1 = false
        ∧ (ContainerImageManifestOCI.validate_static
            Examples.cncfManifestExample).1 = false
        ∧ (ContainerImageIndexOCI.validate_static
            Examples.cncfManifestExample).1 = false)
    ∧ (ContainerImageManifestFactory.create Examples.cncfManifestListExample
          = .ok (.v2s2ManifestList Examples.cncfManifestListExample)
        ∧ (ContainerImageManifestV2S2.validate_static
            Examples.cncfManifestListExample).1 = false
        ∧ (ContainerImageManifestOCI.validate_static
            Examples.cncfManifestListExample).1 = false
        ∧ (ContainerImageIndexOCI.validate_static
            Examples.cncfManifestListExample).1 = false)
    ∧ (ContainerImageManifestFactory.create Examples.ociManifestExample
          = .ok (.ociManifest Examples.ociManifestExample)
        ∧ (ContainerImageManifestV2S2.validate_static
            Examples.ociManifestExample).1 = false
        ∧ (ContainerImageManifestListV2S2.validate_static
            Examples.ociManifestExample).1 = false
        ∧ (ContainerImageIndexOCI.validate_static
            Examples.ociManifestExample).1 = false)
    ∧ (ContainerImageManifestFactory.create Examples.ociIndexExample
          = .ok (.ociIndex Examples.ociIndexExample)
        ∧ (ContainerImageManifestV2S2.validate_static
            Examples.ociIndexExample).1 = false
        ∧ (ContainerImageManifestListV2S2.validate_static
            Examples.ociIndexExample).1 = false
        ∧ (ContainerImageManifestOCI.validate_static
            Examples.ociIndexExample).1 = false) := by
  refine ⟨?_, by rfl, ⟨by rfl, by rfl, by rfl, by rfl⟩,
    ⟨by rfl, by rfl, by rfl, by rfl⟩, ⟨by rfl, by rfl, by rfl, by rfl⟩,
    ⟨by rfl, by rfl, by rfl, by rfl⟩⟩
  intro doc
  refine ⟨?_, ?_, ?_, ?_, ?_⟩
  · intro h1
    simp [ContainerImageManifestFactory.create, h1]
  · intro h1 h2
    simp [ContainerImageManifestFactory.create, h1, h2]
  · intro h1 h2 h3
    simp [ContainerImageManifestFactory.create, h1, h2, h3]
  · intro h1 h2 h3 h4
    simp [ContainerImageManifestFactory.create, h1, h2, h3, h4]
  · intro h1 h2 h3 h4
    simp [ContainerImageManifestFactory.create, h1, h2, h3, h4]

/-- C3 witness: the OCI index canonical example reaches the fourth probe
with the first three validators returning false. -/
theorem C3_factory_first_match_dispatch_witness :
    ContainerImageManifestFactory.create Examples.ociIndexExample
      = .ok (.ociIndex Examples.ociIndexExample) :=
  (C3_factory_first_match_dispatch.1 Examples.ociIndexExample).2.2.2.1
    (by rfl) (by rfl) (by rfl) (by rfl)

/-! ## Dict-field extraction lemmas -/

/-- A present key yields a lookup value. -/
theorem hasKey_lookup {kvs : List (String × Json)} {k : String}
    (h : Json.hasKey kvs k = true) : ∃ v, Json.lookup kvs k = some v := by
  unfold Json.hasKey at h
  rw [List.any_eq_true] at h
  obtain ⟨p, hp, hpk⟩ := h
  have hsome : (kvs.find? (fun p => p.1 == k)).isSome :=
    List.find?_isSome.mpr ⟨p, hp, hpk⟩
  obtain ⟨q, hq⟩ := Option.isSome_iff_exists.mp hsome
  exact ⟨q.2, by unfold Json.lookup; rw [hq]; rfl⟩

/-- A looked-up binding satisfies any predicate that holds of every
binding of the dict. -/
theorem lookup_sat {kvs : List (String × Json)} {k : String} {v : Json}
    {f : String × Json → Bool} (hall : kvs.all f = true)
    (hlk : Json.lookup kvs k = some v) : f (k, v) = true := by
  unfold Json.lookup at hlk
  cases hfind : kvs.find? (fun p => p.1 == k) with
  | none => rw [hfind] at hlk; simp at hlk
  | some q =>
      rw [hfind] at hlk
      simp at hlk
      have hqk : q.1 = k := by
        have := List.find?_some hfind
        simpa using this
      have hmem : q ∈ kvs := List.mem_of_find?_eq_some hfind
      have hfq : f q = true := List.all_eq_true.mp hall q hmem
      have hqe : (k, v) = q := by
        rw [← hqk, ← hlk]
      rw [hqe]
      exact hfq

/-- Shape of the fields of a schema-valid platform dict. -/
theorem platformOk_fields {kvs : List (String × Json)}
    (h : Schema.platformOk (.obj kvs) = true) :
    (∃ s, Json.lookup kvs "os" = some (.str s))
    ∧ (∃ s, Json.lookup kvs "architecture" = some (.str s))
    ∧ (∀ v, Json.lookup kvs "variant" = some v → ∃ s, v = .str s) := by
  unfold Schema.platformOk at h
  simp only [Bool.and_eq_true] at h
  obtain ⟨⟨hos, harch⟩, hall⟩ := h
  refine ⟨?_, ?_, ?_⟩
  · obtain ⟨v, hv⟩ := hasKey_lookup hos
    have := lookup_sat hall hv
    cases v with
    | str s => exact ⟨s, hv⟩
    | null => simp [Schema.isStr] at this
    | bool b => simp [Schema.isStr] at this
    | num n => simp [Schema.isStr] at this
    | arr xs => simp [Schema.isStr] at this
    | obj o => simp [Schema.isStr] at this
  · obtain ⟨v, hv⟩ := hasKey_lookup harch
    have := lookup_sat hall hv
    cases v with
    | str s => exact ⟨s, hv⟩
    | null => simp [Schema.isStr] at this
    | bool b => simp [Schema.isStr] at this
    | num n => simp [Schema.isStr] at this
    | arr xs => simp [Schema.isStr] at this
    | obj o => simp [Schema.isStr] at this
  · intro v hv
    have := lookup_sat hall hv
    cases v with
    | str s => exact ⟨s, rfl⟩
    | null => simp [Schema.isStr] at this
    | bool b => simp [Schema.isStr] at this
    | num n => simp [Schema.isStr] at this
    | arr xs => simp [Schema.isStr] at this
    | obj o => simp [Schema.isStr] at this

/-! ## Claim C9 — platform equality via string form -/

/-- A schema-valid platform stringifies to the spec's string form. -/
theorem strPy_of_valid {p : Json}
    (h : (ContainerImagePlatform.validate_static p).1 = true) :
    ContainerImagePlatform.strPy p = .ok (specPlatformStringForm p) := by
  have hok : Schema.platformOk p = true := by
    unfold ContainerImagePlatform.validate_static at h
    by_cases hc : Schema.platformOk p = true
    · exact hc
    · simp [hc] at h
  cases p with
  | obj kvs =>
      obtain ⟨⟨so, hso⟩, ⟨sa, hsa⟩, hvar⟩ := platformOk_fields hok
      unfold ContainerImagePlatform.strPy ContainerImagePlatform.get_os
        ContainerImagePlatform.get_architecture
        ContainerImagePlatform.get_variant
      cases hv : Json.lookup kvs "variant" with
      | none =>
          simp [ContainerImagePlatform.pyFormat, specPlatformStringForm,
            hso, hsa, hv]
      | some v =>
          obtain ⟨s, rfl⟩ := hvar v hv
          simp [ContainerImagePlatform.pyFormat, specPlatformStringForm,
            hso, hsa, hv, String.append_assoc]
  | null => simp [Schema.platformOk] at hok
  | bool b => simp [Schema.platformOk] at hok
  | num n => simp [Schema.platformOk] at hok
  | str s => simp [Schema.platformOk] at hok
  | arr xs => simp [Schema.platformOk] at hok

/-- C9: for valid platforms, `__eq__` holds exactly when the two string
forms `os/architecture[/variant]` agree (case-sensitively); `__str__`
itself produces that string form. -/
theorem C9_platform_eq_iff_string_form :
    ∀ p q : Json,
      (ContainerImagePlatform.validate_static p).1 = true →
      (ContainerImagePlatform.validate_static q).1 = true →
      ((ContainerImagePlatform.eqPy p q = .ok true) ↔
        specPlatformStringForm p = specPlatformStringForm q)
      ∧ ContainerImagePlatform.strPy p = .ok (specPlatformStringForm p) := by
  intro p q hp hq
  have hsp := strPy_of_valid hp
  have hsq := strPy_of_valid hq
  refine ⟨?_, hsp⟩
  unfold ContainerImagePlatform.eqPy
  rw [hsp, hsq]
  simp

/-- C9 witness: two platforms differing only in variant presence. -/
theorem C9_platform_eq_iff_string_form_witness :
    (ContainerImagePlatform.eqPy
        (.obj [("architecture", .str "amd64"), ("os", .str "linux")])
        (.obj [("architecture", .str "amd64"), ("os", .str "linux"),
          ("variant", .str "v3")])
      = .ok true) ↔
      specPlatformStringForm
        (.obj [("architecture", .str "amd64"), ("os", .str "linux")])
      = specPlatformStringForm
        (.obj [("architecture", .str "amd64"), ("os", .str "linux"),
          ("variant", .str "v3")]) :=
  (C9_platform_eq_iff_string_form _ _ (by rfl) (by rfl)).1

/-! ## Descriptor-shape and dict lemmas shared by C4 and C5 -/

/-- Shape of the fields of a schema-valid descriptor dict. -/
theorem descriptorOk_fields {kvs : List (String × Json)}
    (h : Schema.descriptorOk (.obj kvs) = true) :
    (∃ s, Json.lookup kvs "digest" = some (.str s))
    ∧ (∃ n, Json.lookup kvs "size" = some (.num n)) := by
  unfold Schema.descriptorOk at h
  simp only [Bool.and_eq_true] at h
  obtain ⟨⟨⟨hmt, hsz⟩, hdg⟩, hall⟩ := h
  constructor
  · obtain ⟨v, hv⟩ := hasKey_lookup hdg
    have := lookup_sat hall hv
    cases v with
    | str s => exact ⟨s, hv⟩
    | null => simp [Schema.isStr] at this
    | bool b => simp [Schema.isStr] at this
    | num n => simp [Schema.isStr] at this
    | arr xs => simp [Schema.isStr] at this
    | obj o => simp [Schema.isStr] at this
  · obtain ⟨v, hv⟩ := hasKey_lookup hsz
    have := lookup_sat hall hv
    cases v with
    | num n => exact ⟨n, hv⟩
    | null => simp [Schema.isInt] at this
    | bool b => simp [Schema.isInt] at this
    | str s => simp [Schema.isInt] at this
    | arr xs => simp [Schema.isInt] at this
    | obj o => simp [Schema.isInt] at this

/-- A valid descriptor is an object whose `digest` is the matching string
`descDigest` and whose `size` is the integer `descSize`. -/
theorem descriptorValid_fields {d : Json}
    (h : (ContainerImageDescriptor.validate_static d).1 = true) :
    ∃ kvs, d = .obj kvs
      ∧ Json.lookup kvs "digest" = some (.str (descDigest d))
      ∧ matchFull ANCHORED_DIGEST (descDigest d) = true
      ∧ Json.lookup kvs "size" = some (.num (descSize d)) := by
  have hok : Schema.descriptorOk d = true := by
    unfold ContainerImageDescriptor.validate_static at h
    by_cases hc : Schema.descriptorOk d = true
    · exact hc
    · simp [hc] at h
  cases d with
  | obj kvs =>
      obtain ⟨⟨s, hs⟩, ⟨n, hn⟩⟩ := descriptorOk_fields hok
      have hdx : descDigest (.obj kvs) = s := by
        simp only [descDigest, hs]
      have hsx : descSize (.obj kvs) = n := by
        simp only [descSize, hn]
      have hmatch : matchFull ANCHORED_DIGEST s = true := by
        by_cases hm : matchFull ANCHORED_DIGEST s = true
        · exact hm
        · exfalso
          simp [ContainerImageDescriptor.validate_static, hok, hs, hm] at h
      exact ⟨kvs, rfl, by rw [hdx]; exact hs, by rw [hdx]; exact hmatch,
        by rw [hsx]; exact hn⟩
  | null => simp [Schema.descriptorOk] at hok
  | bool b => simp [Schema.descriptorOk] at hok
  | num n => simp [Schema.descriptorOk] at hok
  | str s => simp [Schema.descriptorOk] at hok
  | arr xs => simp [Schema.descriptorOk] at hok

/-- `construct` returns a valid descriptor unchanged. -/
theorem construct_of_valid {d : Json}
    (h : (ContainerImageDescriptor.validate_static d).1 = true) :
    ContainerImageDescriptor.construct d = .ok d := by
  simp [ContainerImageDescriptor.construct, h]

/-- `get_digest` of a valid descriptor is its `descDigest`. -/
theorem get_digest_of_valid {d : Json}
    (h : (ContainerImageDescriptor.validate_static d).1 = true) :
    ContainerImageDescriptor.get_digest d = .ok (descDigest d) := by
  obtain ⟨kvs, rfl, hdg, hmatch, _⟩ := descriptorValid_fields h
  simp [ContainerImageDescriptor.get_digest, hdg, hmatch]

/-- `get_size` of a valid descriptor is its `descSize`. -/
theorem get_size_of_valid {d : Json}
    (h : (ContainerImageDescriptor.validate_static d).1 = true) :
    ContainerImageDescriptor.get_size d = .ok (descSize d) := by
  obtain ⟨kvs, rfl, _, _, hsz⟩ := descriptorValid_fields h
  have hsx : descSize (Json.obj kvs)
      = descSize (Json.obj kvs) := rfl
  simp [ContainerImageDescriptor.get_size, hsz]

/-- `mapM construct` over valid descriptors is the identity. -/
theorem mapM_construct_of_valid :
    ∀ (xs : List Json),
      (∀ l ∈ xs, (ContainerImageDescriptor.validate_static l).1 = true) →
      xs.mapM ContainerImageDescriptor.construct = .ok xs := by
  intro xs
  induction xs with
  | nil => intro _; rfl
  | cons x xs ih =>
      intro h
      rw [List.mapM_cons]
      rw [construct_of_valid (h x (List.mem_cons_self x xs))]
      rw [ih (fun l hl => h l (List.mem_cons_of_mem x hl))]
      rfl

/-- One iteration of the layer-dict loop on a valid descriptor. -/
theorem layer_step_ok {d0 : List (String × Int)} {x : Json}
    (hx : (ContainerImageDescriptor.validate_static x).1 = true) :
    (do
      let digest ← ContainerImageDescriptor.get_digest x
      let size ← ContainerImageDescriptor.get_size x
      pure (dictSet d0 digest size) : Except PyErr (List (String × Int)))
    = .ok (dictSet d0 (descDigest x) (descSize x)) := by
  rw [get_digest_of_valid hx]
  simp only [except_ok_bind]
  rw [get_size_of_valid hx]
  simp only [except_ok_bind]
  rfl

/-- The layer-dict loop over valid descriptors is the pure `dictSet`
fold. -/
theorem foldlM_layer_dict :
    ∀ (layers : List Json) (d0 : List (String × Int)),
      (∀ l ∈ layers, (ContainerImageDescriptor.validate_static l).1 = true) →
      (layers.foldlM
        (fun d layer => do
          let digest ← ContainerImageDescriptor.get_digest layer
          let size ← ContainerImageDescriptor.get_size layer
          pure (dictSet d digest size))
        d0)
      = .ok (layers.foldl
          (fun d l => dictSet d (descDigest l) (descSize l)) d0) := by
  intro layers
  induction layers with
  | nil => intro d0 _; rfl
  | cons x xs ih =>
      intro d0 h
      rw [List.foldlM_cons]
      simp only [layer_step_ok (h x (List.mem_cons_self x xs)),
        except_ok_bind]
      rw [ih (dictSet d0 (descDigest x) (descSize x))
        (fun l hl => h l (List.mem_cons_of_mem x hl))]
      rfl

/-- Keys after `dictSet`: the old keys plus the written key. -/
theorem mem_keys_dictSet (d : List (String × Int)) (k : String) (v : Int) :
    ∀ k', k' ∈ (dictSet d k v).map (fun p => p.1) ↔
      (k' ∈ d.map (fun p => p.1) ∨ k' = k) := by
  intro k'
  unfold dictSet
  by_cases hany : d.any (fun p => p.1 == k)
  · rw [if_pos hany]
    have hkeys : (d.map (fun p => if p.1 == k then (k, v) else p)).map
        (fun p => p.1) = d.map (fun p => p.1) := by
      rw [List.map_map]
      apply List.map_congr_left
      intro p _
      by_cases hp : (p.1 == k) = true
      · simp only [Function.comp, hp, if_true]
        exact (beq_iff_eq.mp hp).symm
      · simp [Function.comp, hp]
    rw [hkeys]
    constructor
    · intro h; exact Or.inl h
    · rintro (h | rfl)
      · exact h
      · rw [List.any_eq_true] at hany
        obtain ⟨p, hp, hpk⟩ := hany
        rw [List.mem_map]
        exact ⟨p, hp, beq_iff_eq.mp hpk⟩
  · rw [if_neg hany]
    simp [List.mem_map, List.mem_append]

/-- Every binding produced by `dictSet` is an old binding or the written
pair. -/
theorem mem_dictSet (d : List (String × Int)) (k : String) (v : Int) :
    ∀ p ∈ dictSet d k v, p ∈ d ∨ p = (k, v) := by
  intro p hp
  unfold dictSet at hp
  by_cases hany : d.any (fun q => q.1 == k)
  · rw [if_pos hany] at hp
    rw [List.mem_map] at hp
    obtain ⟨q, hq, hqe⟩ := hp
    by_cases hqk : q.1 == k
    · right
      rw [← hqe]
      simp [hqk]
    · left
      rw [← hqe]
      simpa [hqk] using hq
  · rw [if_neg hany] at hp
    rcases List.mem_append.mp hp with h | h
    · exact Or.inl h
    · right
      simpa using h

/-- `dictSet` preserves key distinctness. -/
theorem nodup_keys_dictSet {d : List (String × Int)} (k : String) (v : Int)
    (h : (d.map (fun p => p.1)).Nodup) :
    ((dictSet d k v).map (fun p => p.1)).Nodup := by
  unfold dictSet
  by_cases hany : d.any (fun p => p.1 == k)
  · rw [if_pos hany]
    have hkeys : (d.map (fun p => if p.1 == k then (k, v) else p)).map
        (fun p => p.1) = d.map (fun p => p.1) := by
      rw [List.map_map]
      apply List.map_congr_left
      intro p _
      by_cases hp : (p.1 == k) = true
      · simp only [Function.comp, hp, if_true]
        exact (beq_iff_eq.mp hp).symm
      · simp [Function.comp, hp]
    rw [hkeys]
    exact h
  · rw [if_neg hany]
    rw [List.map_append]
    simp only [List.map_cons, List.map_nil]
    rw [List.nodup_append]
    refine ⟨h, List.nodup_singleton k, ?_⟩
    intro a ha hb
    simp only [List.mem_singleton] at hb
    have hany2 : d.any (fun p => p.1 == k) = false := by
      cases hval : d.any (fun p => p.1 == k) with
      | true => exact absurd hval hany
      | false => rfl
    rw [List.any_eq_false] at hany2
    rw [List.mem_map] at ha
    obtain ⟨p, hp, hpk⟩ := ha
    exact hany2 p hp (by simp [hpk, hb])

/-- `dictSet` with a pair the dict already holds is the identity (given
distinct keys). -/
theorem dictSet_mem_self {d : List (String × Int)} {k : String} {v : Int}
    (hmem : (k, v) ∈ d) (hnd : (d.map (fun p => p.1)).Nodup) :
    dictSet d k v = d := by
  unfold dictSet
  have hany : d.any (fun p => p.1 == k) = true := by
    rw [List.any_eq_true]
    exact ⟨(k, v), hmem, by simp⟩
  rw [if_pos hany]
  refine (List.map_congr_left ?_).trans (List.map_id d)
  intro p hp
  simp only [id]
  by_cases hpk : (p.1 == k) = true
  · have hpk' : p.1 = k := beq_iff_eq.mp hpk
    have hpe : p = (k, v) := by
      have hinj := List.inj_on_of_nodup_map hnd
      have := hinj hp hmem (by simp [hpk'])
      exact this
    rw [hpe]
    simp
  · simp [hpk]

/-- Bindings of the digest-keyed dict built from a pair list come from
the pair list. -/
theorem mem_foldDict {pairs : List (String × Int)} :
    ∀ p ∈ foldDict pairs, p ∈ pairs := by
  unfold foldDict
  suffices h : ∀ (d0 : List (String × Int)), ∀ p ∈ pairs.foldl
      (fun d q => dictSet d q.1 q.2) d0, p ∈ d0 ∨ p ∈ pairs by
    intro p hp
    rcases h [] p hp with hc | hc
    · cases hc
    · exact hc
  induction pairs with
  | nil => intro d0 p hp; exact Or.inl hp
  | cons q qs ih =>
      intro d0 p hp
      rw [List.foldl_cons] at hp
      rcases ih (dictSet d0 q.1 q.2) p hp with hc | hc
      · rcases mem_dictSet d0 q.1 q.2 p hc with hd | hd
        · exact Or.inl hd
        · right
          rw [hd]
          simp
      · right
        exact List.mem_cons_of_mem q hc

/-- The dict built from a pair list has distinct keys. -/
theorem nodup_keys_foldDict (pairs : List (String × Int)) :
    ((foldDict pairs).map (fun p => p.1)).Nodup := by
  unfold foldDict
  suffices h : ∀ (d0 : List (String × Int)),
      (d0.map (fun p => p.1)).Nodup →
      ((pairs.foldl (fun d q => dictSet d q.1 q.2) d0).map
        (fun p => p.1)).Nodup from
    h [] List.nodup_nil
  induction pairs with
  | nil => intro d0 h; exact h
  | cons q qs ih =>
      intro d0 h
      rw [List.foldl_cons]
      exact ih (dictSet d0 q.1 q.2) (nodup_keys_dictSet q.1 q.2 h)

/-- Every key of the pair list reaches the dict. -/
theorem key_mem_foldDict {pairs : List (String × Int)} :
    ∀ p ∈ pairs, p.1 ∈ (foldDict pairs).map (fun q => q.1) := by
  unfold foldDict
  suffices h : ∀ (d0 : List (String × Int)) (k : String),
      (k ∈ d0.map (fun q => q.1) ∨ k ∈ pairs.map (fun q => q.1)) →
      k ∈ (pairs.foldl (fun d q => dictSet d q.1 q.2) d0).map
        (fun q => q.1) by
    intro p hp
    exact h [] p.1 (Or.inr (List.mem_map.mpr ⟨p, hp, rfl⟩))
  induction pairs with
  | nil =>
      intro d0 k hk
      rcases hk with h | h
      · exact h
      · simp at h
  | cons q qs ih =>
      intro d0 k hk
      rw [List.foldl_cons]
      apply ih (dictSet d0 q.1 q.2) k
      rcases hk with h | h
      · exact Or.inl ((mem_keys_dictSet d0 q.1 q.2 k).mpr (Or.inl h))
      · rw [List.map_cons, List.mem_cons] at h
        rcases h with h | h
        · exact Or.inl ((mem_keys_dictSet d0 q.1 q.2 k).mpr (Or.inr h))
        · exact Or.inr h

/-- When all pairs sharing a key agree on the value, appending a pair the
list already holds leaves the dict unchanged. -/
theorem foldDict_append_dup {pairs : List (String × Int)}
    {pl : String × Int} (hmem : pl ∈ pairs)
    (hfun : ∀ p ∈ pairs, ∀ q ∈ pairs, p.1 = q.1 → p.2 = q.2) :
    foldDict (pairs ++ [pl]) = foldDict pairs := by
  have happ : foldDict (pairs ++ [pl]) = dictSet (foldDict pairs) pl.1 pl.2
      := by
    unfold foldDict
    rw [List.foldl_append]
    rfl
  rw [happ]
  have hkey : pl.1 ∈ (foldDict pairs).map (fun q => q.1) :=
    key_mem_foldDict pl hmem
  rw [List.mem_map] at hkey
  obtain ⟨p, hp, hpk⟩ := hkey
  have hpmem : p ∈ pairs := mem_foldDict p hp
  have hval : p.2 = pl.2 := hfun p hpmem pl hmem hpk
  have : (pl.1, pl.2) ∈ foldDict pairs := by
    have : p = (pl.1, pl.2) := by
      cases p
      cases pl
      simp only at hpk hval
      rw [hpk, hval]
    rw [← this]
    exact hp
  exact dictSet_mem_self this (nodup_keys_foldDict pairs)

/-! ## Claim C4 — single-arch manifest size -/

/-- The `(digest, size)` pairs of a layer list (spec view). -/
def layerPairs (layers : List Json) : List (String × Int) :=
  layers.map (fun l => (descDigest l, descSize l))

/-- `get_size` of a well-formed single-arch manifest, in closed form. -/
theorem manifest_get_size_eq {kvs config : List (String × Json)}
    {layers : List Json}
    (hconf : Json.lookup kvs "config" = some (.obj config))
    (hlay : Json.lookup kvs "layers" = some (.arr layers))
    (hcv : (ContainerImageDescriptor.validate_static (.obj config)).1 = true)
    (hlv : ∀ l ∈ layers,
      (ContainerImageDescriptor.validate_static l).1 = true)
    (hne : layers ≠ []) :
    ContainerImageManifest.get_size (.obj kvs)
      = .ok (descSize (.obj config) + dedupSizeSum (layerPairs layers)) := by
  have hcfg : ContainerImageManifest.get_config_descriptor (.obj kvs)
      = .ok (.obj config) := by
    simp only [ContainerImageManifest.get_config_descriptor, hconf]
    exact construct_of_valid hcv
  have hlen : (layers.length == 0) = false := by
    simp
    intro hc
    exact hne hc
  have hlds : ContainerImageManifest.get_layer_descriptors (.obj kvs)
      = .ok layers := by
    simp only [ContainerImageManifest.get_layer_descriptors, hlay, hlen]
    simp only [Bool.false_eq_true, if_false]
    exact mapM_construct_of_valid layers hlv
  unfold ContainerImageManifest.get_size
  rw [hcfg]
  simp only [except_ok_bind]
  rw [get_size_of_valid hcv]
  simp only [except_ok_bind]
  rw [hlds]
  simp only [except_ok_bind]
  rw [foldlM_layer_dict layers [] hlv]
  simp only [except_ok_bind, except_pure]
  unfold dedupSizeSum foldDict layerPairs
  rw [List.foldl_map]

/-- C4: on a well-formed single-arch manifest, `get_size` is the config
size plus the layer sizes de-duplicated by digest (Python-dict semantics:
the last size written for each digest survives); and appending a
duplicate of an existing layer entry leaves `get_size` unchanged whenever
the layer entries sharing a digest agree on their size. -/
theorem C4_manifest_size_dedup :
    (∀ (kvs config : List (String × Json)) (layers : List Json),
      Json.lookup kvs "config" = some (.obj config) →
      Json.lookup kvs "layers" = some (.arr layers) →
      (ContainerImageDescriptor.validate_static (.obj config)).1 = true →
      (∀ l ∈ layers,
        (ContainerImageDescriptor.validate_static l).1 = true) →
      layers ≠ [] →
      ContainerImageManifest.get_size (.obj kvs)
        = .ok (descSize (.obj config) + dedupSizeSum (layerPairs layers)))
    ∧ (∀ (kvs kvs2 config : List (String × Json)) (layers : List Json)
        (l : Json),
      Json.lookup kvs "config" = some (.obj config) →
      Json.lookup kvs "layers" = some (.arr layers) →
      Json.lookup kvs2 "config" = some (.obj config) →
      Json.lookup kvs2 "layers" = some (.arr (layers ++ [l])) →
      (ContainerImageDescriptor.validate_static (.obj config)).1 = true →
      (∀ x ∈ layers,
        (ContainerImageDescriptor.validate_static x).1 = true) →
      l ∈ layers →
      (∀ p ∈ layerPairs layers, ∀ q ∈ layerPairs layers,
        p.1 = q.1 → p.2 = q.2) →
      ContainerImageManifest.get_size (.obj kvs2)
        = ContainerImageManifest.get_size (.obj kvs)) := by
  constructor
  · intro kvs config layers hconf hlay hcv hlv hne
    exact manifest_get_size_eq hconf hlay hcv hlv hne
  · intro kvs kvs2 config layers l hconf hlay hconf2 hlay2 hcv hlv hmem hfun
    have hlv2 : ∀ x ∈ layers ++ [l],
        (ContainerImageDescriptor.validate_static x).1 = true := by
      intro x hx
      rcases List.mem_append.mp hx with h | h
      · exact hlv x h
      · simp only [List.mem_singleton] at h
        subst h
        exact hlv x hmem
    have h1 := manifest_get_size_eq hconf hlay hcv hlv
      (by intro hc; rw [hc] at hmem; cases hmem)
    have h2 := manifest_get_size_eq hconf2 hlay2 hcv hlv2
      (by simp)
    rw [h1, h2]
    have hpl : layerPairs (layers ++ [l])
        = layerPairs layers ++ [(descDigest l, descSize l)] := by
      unfold layerPairs
      rw [List.map_append]
      rfl
    rw [hpl]
    unfold dedupSizeSum
    have hmem2 : (descDigest l, descSize l) ∈ layerPairs layers := by
      unfold layerPairs
      exact List.mem_map.mpr ⟨l, hmem, rfl⟩
    rw [foldDict_append_dup hmem2 hfun]

/-- C4 witness: the CNCF manifest example, duplicated second layer. -/
theorem C4_manifest_size_dedup_witness :
    ContainerImageManifest.get_size Examples.cncfManifestExample
      = .ok (7023 + 32654 + 16724 + 73109) := by
  have h := C4_manifest_size_dedup.1
    [("schemaVersion", .num 2),
     ("mediaType",
      .str "application/vnd.docker.distribution.manifest.v2+json"),
     ("config", .obj [
       ("mediaType", .str "application/vnd.docker.container.image.v1+json"),
       ("digest",
        .str "sha256:b5b2b2c507a0944348e0303114d8d93aaaa081732b86451d9bce1f432a537bc7"),
       ("size", .num 7023)]),
     ("layers", .arr [
       .obj [
         ("mediaType",
          .str "application/vnd.docker.image.rootfs.diff.tar.gzip"),
         ("digest",
          .str "sha256:e692418e4cbaf90ca69d05a66403747baa33ee08806650b51fab815ad7fc331f"),
         ("size", .num 32654)],
       .obj [
         ("mediaType",
          .str "application/vnd.docker.image.rootfs.diff.tar.gzip"),
         ("digest",
          .str "sha256:3c3a4604a545cdc127456d94e421cd355bca5b528f4a9c1905b15da2eb4a4c6b"),
         ("size", .num 16724)],
       .obj [
         ("mediaType",
          .str "application/vnd.docker.image.rootfs.diff.tar.gzip"),
         ("digest",
          .str "sha256:ec4b8955958665577945c89419d1af06b5f7636b4ac3da7f12184802ad867736"),
         ("size", .num 73109)]])]
    _ _ (by rfl) (by rfl) (by rfl) (by decide) (by simp)
  exact h

/-- C4 counterexample to the claim as stated: two layer entries share a
digest but carry different sizes (the schema admits this); duplicating
the first of them changes `get_size`, because the digest-keyed dict keeps
the last written size. -/
theorem C4_duplicate_layer_counterexample :
    ContainerImageManifest.get_size (.obj [
      ("config", .obj [
        ("mediaType", .str "application/vnd.docker.container.image.v1+json"),
        ("digest",
         .str "sha256:b5b2b2c507a0944348e0303114d8d93aaaa081732b86451d9bce1f432a537bc7"),
        ("size", .num 100)]),
      ("layers", .arr [
        .obj [
          ("mediaType",
           .str "application/vnd.docker.image.rootfs.diff.tar.gzip"),
          ("digest",
           .str "sha256:aaaaaaaaaaaaaaaaaaaaaaaaaaaaaaaaaaaaaaaaaaaaaaaaaaaaaaaaaaaaaaaa"),
          ("size", .num 1)],
        .obj [
          ("mediaType",
           .str "application/vnd.docker.image.rootfs.diff.tar.gzip"),
          ("digest",
           .str "sha256:aaaaaaaaaaaaaaaaaaaaaaaaaaaaaaaaaaaaaaaaaaaaaaaaaaaaaaaaaaaaaaaa"),
          ("size", .num 2)]])])
      = .ok 102
    ∧ ContainerImageManifest.get_size (.obj [
      ("config", .obj [
        ("mediaType", .str "application/vnd.docker.container.image.v1+json"),
        ("digest",
         .str "sha256:b5b2b2c507a0944348e0303114d8d93aaaa081732b86451d9bce1f432a537bc7"),
        ("size", .num 100)]),
      ("layers", .arr [
        .obj [
          ("mediaType",
           .str "application/vnd.docker.image.rootfs.diff.tar.gzip"),
          ("digest",
           .str "sha256:aaaaaaaaaaaaaaaaaaaaaaaaaaaaaaaaaaaaaaaaaaaaaaaaaaaaaaaaaaaaaaaa"),
          ("size", .num 1)],
        .obj [
          ("mediaType",
           .str "application/vnd.docker.image.rootfs.diff.tar.gzip"),
          ("digest",
           .str "sha256:aaaaaaaaaaaaaaaaaaaaaaaaaaaaaaaaaaaaaaaaaaaaaaaaaaaaaaaaaaaaaaaa"),
          ("size", .num 2)],
        .obj [
          ("mediaType",
           .str "application/vnd.docker.image.rootfs.diff.tar.gzip"),
          ("digest",
           .str "sha256:aaaaaaaaaaaaaaaaaaaaaaaaaaaaaaaaaaaaaaaaaaaaaaaaaaaaaaaaaaaaaaaa"),
          ("size", .num 1)]])])
      = .ok 101
    ∧ (101 : Int) ≠ 102 := by
  refine ⟨by rfl, by rfl, by decide⟩

/-! ## Claim C5 — fat-manifest size -/

/-- Is a manifest list entry shaped as the size loop requires: a dict
with a pattern-valid string digest and an integer size? -/
def entryWellFormed (e : Json) : Bool :=
  match e with
  | .obj kvs =>
      (match Json.lookup kvs "digest" with
       | some (.str d) => matchFull ANCHORED_DIGEST d
       | _ => false)
      && (match Json.lookup kvs "size" with
          | some (.num _) => true
          | _ => false)
  | _ => false

/-- Is a child manifest shaped as the size loop requires: a dict with a
valid config descriptor and a non-empty list of valid layer
descriptors? -/
def childWellFormed (m : Json) : Bool :=
  match m with
  | .obj kvs =>
      (match Json.lookup kvs "config" with
       | some (.obj c) =>
           (ContainerImageDescriptor.validate_static (.obj c)).1
       | _ => false)
      && (match Json.lookup kvs "layers" with
          | some (.arr ls) =>
              (!(ls.length == 0))
                && ls.all
                  (fun l => (ContainerImageDescriptor.validate_static l).1)
          | _ => false)
  | _ => false

/-- The child manifest the registry returns for an entry: the body served
for `name@digest`. -/
def childOf (fetch : String → Json) (name : String) (e : Json) : Json :=
  fetch (name ++ "@" ++ descDigest e)

/-- The `config` dict of a child manifest (spec view). -/
def childConfig (m : Json) : Json :=
  match m with
  | .obj kvs =>
      match Json.lookup kvs "config" with
      | some c => c
      | none => .null
  | _ => .null

/-- The `layers` array of a child manifest (spec view). -/
def childLayers (m : Json) : List Json :=
  match m with
  | .obj kvs =>
      match Json.lookup kvs "layers" with
      | some (.arr ls) => ls
      | _ => []
  | _ => []

/-- The verbatim sum of the entry sizes. -/
def entrySizesSum (entries : List Json) : Int :=
  (entries.map descSize).sum

/-- The `(digest, size)` pairs of the child configs, one per entry. -/
def configPairs (fetch : String → Json) (name : String)
    (entries : List Json) : List (String × Int) :=
  entries.map (fun e => (descDigest (childConfig (childOf fetch name e)),
    descSize (childConfig (childOf fetch name e))))

/-- The `(digest, size)` pairs of all child layers across the entries, in
walk order. -/
def layerPairsAll (fetch : String → Json) (name : String)
    (entries : List Json) : List (String × Int) :=
  (entries.map (fun e => layerPairs (childLayers (childOf fetch name e)))
    ).flatten

/-- Shape of a well-formed entry's fields. -/
theorem entryWF_fields {e : Json} (h : entryWellFormed e = true) :
    ∃ kvs, e = .obj kvs
      ∧ Json.lookup kvs "digest" = some (.str (descDigest e))
      ∧ matchFull ANCHORED_DIGEST (descDigest e) = true
      ∧ Json.lookup kvs "size" = some (.num (descSize e)) := by
  cases e with
  | obj kvs =>
      unfold entryWellFormed at h
      rw [Bool.and_eq_true] at h
      obtain ⟨hd, hs⟩ := h
      refine ⟨kvs, rfl, ?_⟩
      cases hdl : Json.lookup kvs "digest" with
      | none => rw [hdl] at hd; cases hd
      | some v =>
          rw [hdl] at hd
          cases v with
          | str dg =>
              cases hsl : Json.lookup kvs "size" with
              | none => rw [hsl] at hs; cases hs
              | some w =>
                  rw [hsl] at hs
                  cases w with
                  | num n =>
                      have hdx : descDigest (.obj kvs) = dg := by
                        simp only [descDigest, hdl]
                      have hsx : descSize (.obj kvs) = n := by
                        simp only [descSize, hsl]
                      rw [hdx, hsx]
                      exact ⟨rfl, hd, rfl⟩
                  | null => cases hs
                  | bool b => cases hs
                  | str s2 => cases hs
                  | arr a => cases hs
                  | obj o => cases hs
          | null => cases hd
          | bool b => cases hd
          | num n => cases hd
          | arr a => cases hd
          | obj o => cases hd
  | null => cases h
  | bool b => cases h
  | num n => cases h
  | str s => cases h
  | arr xs => cases h

/-- `entry.get_digest` on a well-formed entry. -/
theorem entry_get_digest_ok {e : Json} (h : entryWellFormed e = true) :
    ContainerImageManifestListEntry.get_digest e = .ok (descDigest e) := by
  obtain ⟨kvs, rfl, hdg, hm, _⟩ := entryWF_fields h
  simp [ContainerImageManifestListEntry.get_digest, hdg, hm]

/-- `entry.get_size` on a well-formed entry. -/
theorem entry_get_size_ok {e : Json} (h : entryWellFormed e = true) :
    ContainerImageManifestListEntry.get_size e = .ok (descSize e) := by
  obtain ⟨kvs, rfl, _, _, hsz⟩ := entryWF_fields h
  simp [ContainerImageManifestListEntry.get_size, hsz]

/-- Components of a well-formed child manifest. -/
theorem childWF_parts {m : Json} (h : childWellFormed m = true) :
    ContainerImageManifest.get_config_descriptor m = .ok (childConfig m)
    ∧ (ContainerImageDescriptor.validate_static (childConfig m)).1 = true
    ∧ ContainerImageManifest.get_layer_descriptors m = .ok (childLayers m)
    ∧ (∀ l ∈ childLayers m,
        (ContainerImageDescriptor.validate_static l).1 = true) := by
  cases m with
  | obj kvs =>
      unfold childWellFormed at h
      rw [Bool.and_eq_true] at h
      obtain ⟨hc, hl⟩ := h
      cases hcl : Json.lookup kvs "config" with
      | none => rw [hcl] at hc; cases hc
      | some c =>
          rw [hcl] at hc
          cases c with
          | obj ckvs =>
              cases hll : Json.lookup kvs "layers" with
              | none => rw [hll] at hl; cases hl
              | some lv =>
                  rw [hll] at hl
                  cases lv with
                  | arr ls =>
                      rw [Bool.and_eq_true] at hl
                      obtain ⟨hne, hall⟩ := hl
                      have hnz : (ls.length == 0) = false := by
                        cases hz : (ls.length == 0) with
                        | false => rfl
                        | true => rw [hz] at hne; simp at hne
                      have hcv2 : (ContainerImageDescriptor.validate_static
                          (.obj ckvs)).1 = true := by
                        simpa using hc
                      have hcc : childConfig (.obj kvs) = .obj ckvs := by
                        simp only [childConfig, hcl]
                      have hly : childLayers (.obj kvs) = ls := by
                        simp only [childLayers, hll]
                      have hav : ∀ l ∈ ls,
                          (ContainerImageDescriptor.validate_static l).1
                            = true :=
                        List.all_eq_true.mp hall
                      refine ⟨?_, ?_, ?_, ?_⟩
                      · rw [hcc]
                        simp only [ContainerImageManifest.get_config_descriptor,
                          hcl]
                        exact construct_of_valid hcv2
                      · rw [hcc]; exact hcv2
                      · rw [hly]
                        simp only [ContainerImageManifest.get_layer_descriptors,
                          hll, hnz]
                        simp only [Bool.false_eq_true, if_false]
                        exact mapM_construct_of_valid ls hav
                      · rw [hly]; exact hav
                  | null => cases hl
                  | bool b => cases hl
                  | num n => cases hl
                  | str s => cases hl
                  | obj o => cases hl
          | null => cases hc
          | bool b => cases hc
          | num n => cases hc
          | str s => cases hc
          | arr a => cases hc
  | null => cases h
  | bool b => cases h
  | num n => cases h
  | str s => cases h
  | arr xs => cases h

/-- One iteration of the fat-manifest size loop, in closed form. -/
theorem sizeLoopBody_ok {fetch : String → Json} {name : String} {e : Json}
    (he : entryWellFormed e = true)
    (href : matchFull REFERENCE_PAT (name ++ "@" ++ descDigest e) = true)
    (hch : childWellFormed (childOf fetch name e) = true)
    (acc : List (String × Int) × List (String × Int) × Int) :
    ContainerImageManifestList.sizeLoopBody fetch name acc e
      = .ok (dictSet acc.1
          (descDigest (childConfig (childOf fetch name e)))
          (descSize (childConfig (childOf fetch name e))),
        (childLayers (childOf fetch name e)).foldl
          (fun d l => dictSet d (descDigest l) (descSize l)) acc.2.1,
        acc.2.2 + descSize e) := by
  obtain ⟨hcfg, hcv, hlds, hlv⟩ := childWF_parts hch
  unfold ContainerImageManifestList.sizeLoopBody
  rw [entry_get_size_ok he]
  simp only [except_ok_bind]
  rw [entry_get_digest_ok he]
  simp only [except_ok_bind]
  have hman : ContainerImageRegistryClient.get_manifest fetch
      (name ++ "@" ++ descDigest e) = .ok (childOf fetch name e) := by
    simp [ContainerImageRegistryClient.get_manifest, href, childOf]
  rw [hman]
  simp only [except_ok_bind]
  rw [hlds]
  simp only [except_ok_bind]
  rw [hcfg]
  simp only [except_ok_bind]
  rw [get_digest_of_valid hcv]
  simp only [except_ok_bind]
  rw [get_size_of_valid hcv]
  simp only [except_ok_bind]
  rw [foldlM_layer_dict (childLayers (childOf fetch name e)) acc.2.1 hlv]
  simp only [except_ok_bind]
  rfl

/-- The fat-manifest size loop over well-formed entries, in closed
form. -/
theorem foldlM_sizeLoop {fetch : String → Json} {name : String} :
    ∀ (entries : List Json)
      (acc : List (String × Int) × List (String × Int) × Int),
      (∀ e ∈ entries, entryWellFormed e = true) →
      (∀ e ∈ entries,
        matchFull REFERENCE_PAT (name ++ "@" ++ descDigest e) = true) →
      (∀ e ∈ entries, childWellFormed (childOf fetch name e) = true) →
      entries.foldlM (ContainerImageManifestList.sizeLoopBody fetch name) acc
        = .ok ((configPairs fetch name entries).foldl
            (fun d p => dictSet d p.1 p.2) acc.1,
          (layerPairsAll fetch name entries).foldl
            (fun d p => dictSet d p.1 p.2) acc.2.1,
          acc.2.2 + entrySizesSum entries) := by
  intro entries
  induction entries with
  | nil =>
      intro acc _ _ _
      simp [configPairs, layerPairsAll, entrySizesSum]
  | cons e es ih =>
      intro acc he href hch
      rw [List.foldlM_cons]
      rw [sizeLoopBody_ok (he e (List.mem_cons_self e es))
        (href e (List.mem_cons_self e es))
        (hch e (List.mem_cons_self e es)) acc]
      simp only [except_ok_bind]
      rw [ih _ (fun x hx => he x (List.mem_cons_of_mem e hx))
        (fun x hx => href x (List.mem_cons_of_mem e hx))
        (fun x hx => hch x (List.mem_cons_of_mem e hx))]
      have hcp : configPairs fetch name (e :: es)
          = (descDigest (childConfig (childOf fetch name e)),
             descSize (childConfig (childOf fetch name e)))
            :: configPairs fetch name es := by
        simp [configPairs]
      have hlp : layerPairsAll fetch name (e :: es)
          = layerPairs (childLayers (childOf fetch name e))
            ++ layerPairsAll fetch name es := by
        simp [layerPairsAll]
      have hes : entrySizesSum (e :: es) = descSize e + entrySizesSum es := by
        simp [entrySizesSum]
      rw [hcp, hlp, hes, List.foldl_cons, List.foldl_append]
      have hinner : (childLayers (childOf fetch name e)).foldl
          (fun d l => dictSet d (descDigest l) (descSize l)) acc.2.1
          = (layerPairs (childLayers (childOf fetch name e))).foldl
            (fun d p => dictSet d p.1 p.2) acc.2.1 := by
        unfold layerPairs
        rw [List.foldl_map]
      rw [hinner]
      have harith : acc.2.2 + descSize e + entrySizesSum es
          = acc.2.2 + (descSize e + entrySizesSum es) := by omega
      rw [harith]

/-- C5: for a manifest list whose entries and fetched children are
well-formed, `get_size` is the verbatim sum of the entry sizes, plus the
child config sizes de-duplicated by digest, plus the child layer sizes
de-duplicated by digest across all entries (Python-dict semantics: the
last size written for a digest survives).  In the concrete two-arch
scenario, making the second arch share the first arch's layer (same
digest and size) lowers the total by exactly one copy of that layer's
size. -/
theorem C5_fat_manifest_size :
    (∀ (fetch : String → Json) (listKvs : List (String × Json))
      (entries : List Json) (name : String),
      Json.lookup listKvs "manifests" = some (.arr entries) →
      matchFull ANCHORED_NAME name = true →
      (∀ e ∈ entries, entryWellFormed e = true) →
      (∀ e ∈ entries,
        matchFull REFERENCE_PAT (name ++ "@" ++ descDigest e) = true) →
      (∀ e ∈ entries, childWellFormed (childOf fetch name e) = true) →
      ContainerImageManifestList.get_size fetch (.obj listKvs) name
        = .ok (.inr (entrySizesSum entries
            + dedupSizeSum (configPairs fetch name entries)
            + dedupSizeSum (layerPairsAll fetch name entries))))
    ∧ ContainerImageManifestList.get_size Examples.s6FetchDistinct
        Examples.s6ListDoc "reg.io/app" = .ok (.inr 3400)
    ∧ ContainerImageManifestList.get_size Examples.s6FetchShared
        Examples.s6ListDoc "reg.io/app" = .ok (.inr 2400)
    ∧ (3400 - 2400 : Int) = 1000 := by
  refine ⟨?_, by rfl, by rfl, by rfl⟩
  intro fetch listKvs entries name hlk hname he href hch
  have hent : ContainerImageManifestList.get_entries (.obj listKvs)
      = .ok entries := by
    simp only [ContainerImageManifestList.get_entries, hlk]
  simp only [ContainerImageManifestList.get_size, hname, Bool.not_true,
    if_false, Bool.true_eq_false, ite_false, ite_true, not_true_eq_false,
    if_neg, hent, except_ok_bind]
  rw [foldlM_sizeLoop entries ([], [], 0) he href hch]
  simp only [except_ok_bind, except_pure]
  unfold dedupSizeSum foldDict
  simp [Int.zero_add, Int.add_comm, Int.add_assoc, Int.add_left_comm]

/-- C5 witness: the distinct-layer two-arch scenario instantiating the
general formula. -/
theorem C5_fat_manifest_size_witness :
    ContainerImageManifestList.get_size Examples.s6FetchDistinct
        Examples.s6ListDoc "reg.io/app"
      = .ok (.inr (entrySizesSum Examples.s6Entries
          + dedupSizeSum (configPairs Examples.s6FetchDistinct "reg.io/app"
              Examples.s6Entries)
          + dedupSizeSum (layerPairsAll Examples.s6FetchDistinct "reg.io/app"
              Examples.s6Entries))) :=
  C5_fat_manifest_size.1 Examples.s6FetchDistinct
    [("manifests", .arr Examples.s6Entries)] Examples.s6Entries "reg.io/app"
    (by rfl) (by rfl) (by decide) (by decide) (by decide)

/-! ## Claim C8 — image list diff -/

/-- Symmetry of string `==`. -/
theorem beq_str_symm {a b : String} : (a == b) = (b == a) := by
  by_cases h : a = b
  · rw [h]
  · have h1 : (a == b) = false := by
      rw [Bool.eq_false_iff]
      intro hc
      exact h (beq_iff_eq.mp hc)
    have h2 : (b == a) = false := by
      rw [Bool.eq_false_iff]
      intro hc
      exact h (beq_iff_eq.mp hc).symm
    rw [h1, h2]

/-- The current-side part of the name-keyed map after both recording
loops over `cur` and the processed previous prefix `pref`. -/
def mapA (cur pref : List String) (nameOf : String → String) :
    ContainerImageList.DiffMap :=
  cur.map (fun r => (nameOf r,
    (some r, pref.find? (fun q => nameOf q == nameOf r))))

/-- The previous-only part of the name-keyed map after recording the
previous prefix `pref`. -/
def mapB (cur pref : List String) (nameOf : String → String) :
    ContainerImageList.DiffMap :=
  (pref.filter (fun q => (cur.find? (fun r => nameOf r == nameOf q)).isNone)
    ).map (fun q => (nameOf q, (none, some q)))

/-- The spec's description of the diff: group by name; a name on both
sides goes to `common` or `updated` by identifier equality (recording the
current-side image), a current-only name to `added`, a previous-only name
to `removed`. -/
def diffSpec (current previous : List String) (nameOf idOf : String → String) :
    ContainerImageList.DiffResult :=
  { added := current.filter (fun r =>
      (previous.find? (fun q => nameOf q == nameOf r)).isNone),
    removed := previous.filter (fun q =>
      (current.find? (fun r => nameOf r == nameOf q)).isNone),
    updated := current.filter (fun r =>
      match previous.find? (fun q => nameOf q == nameOf r) with
      | some q => !(idOf r == idOf q)
      | none => false),
    common := current.filter (fun r =>
      match previous.find? (fun q => nameOf q == nameOf r) with
      | some q => idOf r == idOf q
      | none => false) }

/-- `setCurrent` on a fresh name appends. -/
theorem setCurrent_fresh {m : ContainerImageList.DiffMap} {n ref : String}
    (h : ¬ n ∈ m.map (fun p => p.1)) :
    ContainerImageList.setCurrent m n ref = m ++ [(n, (some ref, none))] := by
  unfold ContainerImageList.setCurrent
  have hany : m.any (fun p => p.1 == n) = false := by
    rw [List.any_eq_false]
    intro p hp hbe
    exact h (List.mem_map.mpr ⟨p, hp, beq_iff_eq.mp hbe⟩)
  rw [hany]
  simp

/-- `setPrevious` on a fresh name appends. -/
theorem setPrevious_notmem {m : ContainerImageList.DiffMap} {n ref : String}
    (h : m.any (fun p => p.1 == n) = false) :
    ContainerImageList.setPrevious m n ref = m ++ [(n, (none, some ref))]
    := by
  unfold ContainerImageList.setPrevious
  rw [h]
  simp

/-- `setPrevious` on a present name updates in place. -/
theorem setPrevious_mem {m : ContainerImageList.DiffMap} {n ref : String}
    (h : m.any (fun p => p.1 == n) = true) :
    ContainerImageList.setPrevious m n ref
      = m.map (fun p => if p.1 == n then (p.1, (p.2.1, some ref)) else p)
    := by
  unfold ContainerImageList.setPrevious
  rw [h]
  simp

/-- The first `diff` loop over names-distinct current images appends one
current-side record per image. -/
theorem foldlM_currentLoop {nameOf : String → String} :
    ∀ (cur : List String) (m0 : ContainerImageList.DiffMap),
      (∀ r ∈ cur, ContainerImageReference.get_name r = .ok (nameOf r)) →
      (∀ r ∈ cur, ¬ nameOf r ∈ m0.map (fun p => p.1)) →
      ((cur.map nameOf).Nodup) →
      cur.foldlM ContainerImageList.currentLoopBody m0
        = .ok (m0 ++ cur.map (fun r => (nameOf r, (some r, none)))) := by
  intro cur
  induction cur with
  | nil => intro m0 _ _ _; simp
  | cons r rs ih =>
      intro m0 hn hf hnd
      rw [List.foldlM_cons]
      have hb : ContainerImageList.currentLoopBody m0 r
          = .ok (m0 ++ [(nameOf r, (some r, none))]) := by
        unfold ContainerImageList.currentLoopBody
        rw [hn r (List.mem_cons_self r rs)]
        simp only [except_ok_bind, except_pure]
        rw [setCurrent_fresh (hf r (List.mem_cons_self r rs))]
      rw [hb]
      simp only [except_ok_bind]
      rw [List.map_cons, List.nodup_cons] at hnd
      have hf' : ∀ x ∈ rs,
          ¬ nameOf x ∈ ((m0 ++ [(nameOf r, (some r, none))]
            : ContainerImageList.DiffMap)).map (fun p => p.1) := by
        intro x hx hmem
        rw [List.map_append] at hmem
        rcases List.mem_append.mp hmem with h | h
        · exact hf x (List.mem_cons_of_mem r hx) h
        · simp at h
          exact hnd.1 (h ▸ List.mem_map.mpr ⟨x, hx, rfl⟩)
      rw [ih (m0 ++ [(nameOf r, (some r, none))])
        (fun x hx => hn x (List.mem_cons_of_mem r hx)) hf' hnd.2]
      simp

/-- Recording one previous-side image steps the `mapA ++ mapB`
characterization forward by one prefix element. -/
theorem setPrevious_step {cur pref : List String} {nameOf : String → String}
    {q : String} (hqp : ¬ nameOf q ∈ pref.map nameOf) :
    ContainerImageList.setPrevious
        (mapA cur pref nameOf ++ mapB cur pref nameOf) (nameOf q) q
      = mapA cur (pref ++ [q]) nameOf ++ mapB cur (pref ++ [q]) nameOf := by
  cases hfind : cur.find? (fun r => nameOf r == nameOf q) with
  | none =>
      have hnotc : ∀ r ∈ cur, ¬ (nameOf r == nameOf q) = true :=
        List.find?_eq_none.mp hfind
      have hany : (mapA cur pref nameOf ++ mapB cur pref nameOf).any
          (fun p => p.1 == nameOf q) = false := by
        rw [List.any_eq_false]
        intro p hp hbe
        rcases List.mem_append.mp hp with h | h
        · rw [mapA, List.mem_map] at h
          obtain ⟨r, hr, rfl⟩ := h
          exact hnotc r hr hbe
        · rw [mapB, List.mem_map] at h
          obtain ⟨q2, hq2, rfl⟩ := h
          have hq2p : q2 ∈ pref := List.mem_of_mem_filter hq2
          exact hqp (beq_iff_eq.mp hbe ▸ List.mem_map.mpr ⟨q2, hq2p, rfl⟩)
      rw [setPrevious_notmem hany]
      have hA : mapA cur (pref ++ [q]) nameOf = mapA cur pref nameOf := by
        unfold mapA
        apply List.map_congr_left
        intro r hr
        rw [List.find?_append]
        have : [q].find? (fun q2 => nameOf q2 == nameOf r) = none := by
          simp only [List.find?_singleton]
          have : (nameOf q == nameOf r) = false := by
            rw [beq_str_symm]
            rw [Bool.eq_false_iff]
            exact hnotc r hr
          rw [this]
          rfl
        rw [this, Option.or_none]
      have hB : mapB cur (pref ++ [q]) nameOf
          = mapB cur pref nameOf ++ [(nameOf q, (none, some q))] := by
        unfold mapB
        rw [List.filter_append, List.map_append]
        have : [q].filter (fun q2 =>
            (cur.find? (fun r => nameOf r == nameOf q2)).isNone) = [q] := by
          simp [List.filter_cons, hfind]
        rw [this]
        rfl
      rw [hA, hB, List.append_assoc]
  | some r0 =>
      have hr0c : r0 ∈ cur := List.mem_of_find?_eq_some hfind
      have hr0b : (nameOf r0 == nameOf q) = true := by
        simpa using List.find?_some hfind
      have hany : (mapA cur pref nameOf ++ mapB cur pref nameOf).any
          (fun p => p.1 == nameOf q) = true := by
        rw [List.any_eq_true]
        refine ⟨(nameOf r0, (some r0,
          pref.find? (fun q2 => nameOf q2 == nameOf r0))), ?_, hr0b⟩
        exact List.mem_append.mpr (Or.inl (List.mem_map.mpr ⟨r0, hr0c, rfl⟩))
      rw [setPrevious_mem hany, List.map_append]
      have hA : (mapA cur pref nameOf).map
          (fun p => if p.1 == nameOf q then (p.1, (p.2.1, some q)) else p)
          = mapA cur (pref ++ [q]) nameOf := by
        unfold mapA
        rw [List.map_map]
        apply List.map_congr_left
        intro r hr
        simp only [Function.comp]
        by_cases hb : (nameOf r == nameOf q) = true
        · rw [if_pos hb]
          have hpref : pref.find? (fun q2 => nameOf q2 == nameOf r) = none
              := by
            rw [List.find?_eq_none]
            intro q2 hq2 hbe
            exact hqp ((beq_iff_eq.mp hb ▸ beq_iff_eq.mp hbe : nameOf q2
              = nameOf q) ▸ List.mem_map.mpr ⟨q2, hq2, rfl⟩)
          rw [List.find?_append, hpref]
          have hq1 : [q].find? (fun q2 => nameOf q2 == nameOf r) = some q
              := by
            simp only [List.find?_singleton]
            rw [beq_str_symm] at hb
            rw [hb]
            rfl
          rw [hq1]
          rfl
        · rw [if_neg (by simpa using hb)]
          rw [List.find?_append]
          have hq1 : [q].find? (fun q2 => nameOf q2 == nameOf r) = none := by
            simp only [List.find?_singleton]
            rw [beq_str_symm] at hb
            rw [Bool.eq_false_iff.mpr hb]
            rfl
          rw [hq1, Option.or_none]
      have hB : (mapB cur pref nameOf).map
          (fun p => if p.1 == nameOf q then (p.1, (p.2.1, some q)) else p)
          = mapB cur (pref ++ [q]) nameOf := by
        unfold mapB
        rw [List.filter_append]
        have hqdrop : [q].filter (fun q2 =>
            (cur.find? (fun r => nameOf r == nameOf q2)).isNone) = [] := by
          simp [List.filter_cons, hfind]
        rw [hqdrop, List.append_nil, List.map_map]
        apply List.map_congr_left
        intro q2 hq2
        simp only [Function.comp]
        have hq2p : q2 ∈ pref := List.mem_of_mem_filter hq2
        have hbe : (nameOf q2 == nameOf q) = false := by
          rw [Bool.eq_false_iff]
          intro hc
          exact hqp (beq_iff_eq.mp hc ▸ List.mem_map.mpr ⟨q2, hq2p, rfl⟩)
        rw [if_neg (by simp [hbe])]
      rw [hA, hB]

/-- The second `diff` loop carries the `mapA ++ mapB` characterization
across the whole previous list. -/
theorem foldlM_prevLoop {nameOf : String → String} {cur : List String} :
    ∀ (rest pref : List String),
      (∀ q ∈ rest, ContainerImageReference.get_name q = .ok (nameOf q)) →
      (((pref ++ rest).map nameOf).Nodup) →
      rest.foldlM ContainerImageList.previousLoopBody
          (mapA cur pref nameOf ++ mapB cur pref nameOf)
        = .ok (mapA cur (pref ++ rest) nameOf
            ++ mapB cur (pref ++ rest) nameOf) := by
  intro rest
  induction rest with
  | nil => intro pref _ _; simp
  | cons q rs ih =>
      intro pref hn hnd
      rw [List.foldlM_cons]
      have hqp : ¬ nameOf q ∈ pref.map nameOf := by
        rw [List.map_append] at hnd
        intro hmem
        rcases List.nodup_append.mp hnd with ⟨_, _, hdisj⟩
        exact hdisj hmem (by simp)
      have hb : ContainerImageList.previousLoopBody
          (mapA cur pref nameOf ++ mapB cur pref nameOf) q
          = .ok (mapA cur (pref ++ [q]) nameOf
              ++ mapB cur (pref ++ [q]) nameOf) := by
        unfold ContainerImageList.previousLoopBody
        rw [hn q (List.mem_cons_self q rs)]
        simp only [except_ok_bind, except_pure]
        rw [setPrevious_step hqp]
      rw [hb]
      simp only [except_ok_bind]
      have hnd' : (((pref ++ [q]) ++ rs).map nameOf).Nodup := by
        rw [List.append_assoc]
        simpa using hnd
      rw [ih (pref ++ [q]) (fun x hx => hn x (List.mem_cons_of_mem q hx))
        hnd']
      rw [List.append_assoc]
      rfl

/-- Classification of the current-side map entries. -/
theorem foldlM_classifyA {nameOf idOf : String → String}
    {previous : List String}
    (hprev : ∀ q ∈ previous,
      ContainerImageReference.get_identifier q = .ok (idOf q)) :
    ∀ (crest : List String) (acc : ContainerImageList.DiffResult),
      (∀ r ∈ crest,
        ContainerImageReference.get_identifier r = .ok (idOf r)) →
      (crest.map (fun r => (nameOf r, (some r,
          previous.find? (fun q => nameOf q == nameOf r))))).foldlM
          ContainerImageList.classifyLoopBody acc
        = .ok ⟨acc.added ++ crest.filter (fun r =>
              (previous.find? (fun q => nameOf q == nameOf r)).isNone),
            acc.removed,
            acc.updated ++ crest.filter (fun r =>
              match previous.find? (fun q => nameOf q == nameOf r) with
              | some q => !(idOf r == idOf q)
              | none => false),
            acc.common ++ crest.filter (fun r =>
              match previous.find? (fun q => nameOf q == nameOf r) with
              | some q => idOf r == idOf q
              | none => false)⟩ := by
  intro crest
  induction crest with
  | nil => intro acc _; simp
  | cons r rs ih =>
      intro acc hcur
      rw [List.map_cons, List.foldlM_cons]
      cases hf : previous.find? (fun q => nameOf q == nameOf r) with
      | none =>
          have hstep : ContainerImageList.classifyLoopBody acc
              (nameOf r, (some r, none))
              = .ok { acc with added := acc.added ++ [r] } := by
            rfl
          rw [hstep]
          simp only [except_ok_bind]
          rw [ih { acc with added := acc.added ++ [r] }
            (fun x hx => hcur x (List.mem_cons_of_mem r hx))]
          simp [List.filter_cons, hf, List.append_assoc]
      | some qm =>
          have hqmem : qm ∈ previous := List.mem_of_find?_eq_some hf
          have hidr := hcur r (List.mem_cons_self r rs)
          have hidq := hprev qm hqmem
          by_cases hid : (idOf r == idOf qm) = true
          · have hstep : ContainerImageList.classifyLoopBody acc
                (nameOf r, (some r, some qm))
                = .ok { acc with common := acc.common ++ [r] } := by
              simp [ContainerImageList.classifyLoopBody, hidr, hidq, hid]
              exact beq_iff_eq.mp hid
            rw [hstep]
            simp only [except_ok_bind]
            rw [ih { acc with common := acc.common ++ [r] }
              (fun x hx => hcur x (List.mem_cons_of_mem r hx))]
            simp [List.filter_cons, hf, hid, List.append_assoc]
          · have hstep : ContainerImageList.classifyLoopBody acc
                (nameOf r, (some r, some qm))
                = .ok { acc with updated := acc.updated ++ [r] } := by
              simp [ContainerImageList.classifyLoopBody, hidr, hidq, hid]
              exact fun hc => hid (beq_iff_eq.mpr hc)
            rw [hstep]
            simp only [except_ok_bind]
            rw [ih { acc with updated := acc.updated ++ [r] }
              (fun x hx => hcur x (List.mem_cons_of_mem r hx))]
            simp [List.filter_cons, hf, hid, List.append_assoc]

/-- Classification of the previous-only map entries. -/
theorem foldlM_classifyB {nameOf : String → String} :
    ∀ (qs : List String) (acc : ContainerImageList.DiffResult),
      (qs.map (fun q => (nameOf q, (none, some q)))).foldlM
          ContainerImageList.classifyLoopBody acc
        = .ok ⟨acc.added, acc.removed ++ qs, acc.updated, acc.common⟩ := by
  intro qs
  induction qs with
  | nil => intro acc; simp
  | cons q rs ih =>
      intro acc
      rw [List.map_cons, List.foldlM_cons]
      have hstep : ContainerImageList.classifyLoopBody acc
          (nameOf q, (none, some q))
          = .ok { acc with removed := acc.removed ++ [q] } := by
        rfl
      rw [hstep]
      simp only [except_ok_bind]
      rw [ih { acc with removed := acc.removed ++ [q] }]
      simp [List.append_assoc]

/-- C8: `diff` groups images by name and classifies each name as the
spec says: in both lists with equal identifiers → `common`; in both with
differing identifiers → `updated` (current-side image recorded);
current-only → `added`; previous-only → `removed`.  The scenario-S7
instance comes out exactly as claimed. -/
theorem C8_diff_groups_by_name :
    (∀ (current previous : List String) (nameOf idOf : String → String),
      (∀ r ∈ current ++ previous,
        ContainerImageReference.get_name r = .ok (nameOf r)) →
      (∀ r ∈ current ++ previous,
        ContainerImageReference.get_identifier r = .ok (idOf r)) →
      (current.map nameOf).Nodup →
      (previous.map nameOf).Nodup →
      ContainerImageList.diff current previous
        = .ok (diffSpec current previous nameOf idOf))
    ∧ ContainerImageList.diff Examples.s7Current Examples.s7Previous
        = .ok ⟨["reg.io/new5:t"], ["reg.io/old4:t"],
            ["reg.io/img1:a",
             "reg.io/img3@sha256:aaaaaaaaaaaaaaaaaaaaaaaaaaaaaaaaaaaaaaaaaaaaaaaaaaaaaaaaaaaaaaaa"],
            ["reg.io/img2:t"]⟩ := by
  constructor
  · intro current previous nameOf idOf hname hid hndC hndP
    have hnameC : ∀ r ∈ current,
        ContainerImageReference.get_name r = .ok (nameOf r) :=
      fun r hr => hname r (List.mem_append.mpr (Or.inl hr))
    have hnameP : ∀ r ∈ previous,
        ContainerImageReference.get_name r = .ok (nameOf r) :=
      fun r hr => hname r (List.mem_append.mpr (Or.inr hr))
    have hidC : ∀ r ∈ current,
        ContainerImageReference.get_identifier r = .ok (idOf r) :=
      fun r hr => hid r (List.mem_append.mpr (Or.inl hr))
    have hidP : ∀ r ∈ previous,
        ContainerImageReference.get_identifier r = .ok (idOf r) :=
      fun r hr => hid r (List.mem_append.mpr (Or.inr hr))
    unfold ContainerImageList.diff
    rw [foldlM_currentLoop current [] hnameC (by simp) hndC]
    simp only [except_ok_bind, List.nil_append]
    have hm1 : current.map (fun r => ((nameOf r : String),
        ((some r : Option String), (none : Option String))))
        = mapA current [] nameOf ++ mapB current [] nameOf := by
      simp [mapA, mapB]
    rw [hm1]
    rw [foldlM_prevLoop previous [] hnameP (by simpa using hndP)]
    simp only [except_ok_bind, List.nil_append]
    rw [List.foldlM_append]
    rw [mapA, foldlM_classifyA hidP current _ hidC]
    simp only [except_ok_bind]
    rw [mapB, foldlM_classifyB]
    simp [diffSpec]
  · rfl

/-- C8 witness: the S7 scenario instantiating the general grouping
theorem, with the name and identifier maps realized by the parser. -/
theorem C8_diff_groups_by_name_witness :
    ContainerImageList.diff Examples.s7Current Examples.s7Previous
      = .ok (diffSpec Examples.s7Current Examples.s7Previous
          (fun r => (ContainerImageReference.get_name r).toOption.getD "")
          (fun r =>
            (ContainerImageReference.get_identifier r).toOption.getD "")) :=
  C8_diff_groups_by_name.1 Examples.s7Current Examples.s7Previous
    (fun r => (ContainerImageReference.get_name r).toOption.getD "")
    (fun r => (ContainerImageReference.get_identifier r).toOption.getD "")
    (by decide) (by decide) (by decide) (by decide)

/-- C10 witness: the one-key manifest `{"layers": []}`. -/
theorem C10_empty_layers_error_witness :
    Json.lookup [("layers", Json.arr [])] "layers" = some (.arr [])
    ∧ (ContainerImageManifest.get_layer_descriptors
          (.obj [("layers", Json.arr [])])
        = .error (.valueError "No layers found")
      ∧ ∃ e, ContainerImageManifest.get_size (.obj [("layers", Json.arr [])])
          = .error e) :=
  ⟨by rfl, C10_empty_layers_error [("layers", Json.arr [])] (by rfl)⟩

end ContainerImagePy
